import Mathlib

/-!
Shallow embedding of the ingestion pipeline of the XMLFATTUREPROCESSOR
repository (document classifier, envelope decoder, invoice schema
extraction, deduplication index, ledger writer), translated from
`src/processor_v3.py` and `src/xml_fatture_processor_v8.py`, together
with theorems settling the specification claims.

External collaborators (hashlib digests, the asn1crypto / Windows /
OpenSSL decode providers, the ElementTree string-to-tree step, uuid
tokens, clock readings) are modelled as explicit oracle parameters;
everything the repository itself computes is translated directly.
-/

namespace XFP

/-! ## String utilities shared by the sources -/

/-- The whitespace characters recognised by the regex class used by the
sources for content normalisation and stripping. -/
def wsChars : List Char := [Char.ofNat 32, Char.ofNat 9, Char.ofNat 10, Char.ofNat 11, Char.ofNat 12, Char.ofNat 13]

def isWs (c : Char) : Bool := wsChars.contains c

/-- Removal of all whitespace, the normalisation applied before the
content hash in `is_duplicate` / `calculate_content_hash`. -/
def stripWs (s : String) : String := String.mk (s.data.filter (fun c => !isWs c))

/-- Model of Python `str.strip()`. -/
def pyStrip (s : String) : String :=
  String.mk (((s.data.dropWhile isWs).reverse.dropWhile isWs).reverse)

/-- Does `pat` start the list `l`? -/
def prefB : List Char → List Char → Bool
  | [], _ => true
  | _ :: _, [] => false
  | a :: as, b :: bs => a == b && prefB as bs

/-- Does `pat` occur anywhere inside `l` (Python `pat in s`)? -/
def subB (pat : List Char) : List Char → Bool
  | [] => prefB pat []
  | l@(_ :: t) => prefB pat l || subB pat t

/-- Substring containment on strings. -/
def containsSub (s pat : String) : Bool := subB pat.data s.data

/-- First index at which `pat` occurs (Python `str.find`, `None` for -1). -/
def idxOfSub (pat : List Char) : List Char → Option Nat
  | [] => if prefB pat [] then some 0 else none
  | l@(_ :: t) => if prefB pat l then some 0 else (idxOfSub pat t).map (· + 1)

def pyFind (s pat : String) : Option Nat := idxOfSub pat.data s.data

/-- The tail of `s` from character index `i` (Python `s[i:]`). -/
def fromIdx (s : String) (i : Nat) : String := String.mk (s.data.drop i)

def lowerStr (s : String) : String := String.mk (s.data.map Char.toLower)

def sufB (pat l : List Char) : Bool := prefB pat.reverse l.reverse

def endsWithStr (s pat : String) : Bool := sufB pat.data s.data

/-- `pathlib.Path.suffix`: the extension from the last dot, empty when the
dot is absent, leading, or final. -/
def pathSuffix (name : String) : String :=
  let l := name.data
  match l.reverse.findIdx? (fun c => c == '.') with
  | none => String.mk []
  | some k =>
    if 0 < k ∧ 0 < l.length - 1 - k then String.mk (l.drop (l.length - 1 - k)) else String.mk []

/-- Python truthiness of an optional string (`None` and `""` are falsy):
`pyOr o d` is `o or d`. -/
def pyOr (o : Option String) (d : String) : String :=
  match o with
  | some s => if s == String.mk [] then d else s
  | none => d

/-! ## Document classifier (`determine_file_type` and the patterns) -/

def sUnderscoreMT : String := "_MT_"
def sMetadato : String := "metadato"
def notifMarks : List String := ["_NS_", "_RC_", "_MC_", "_NE_", "_DT_", "_AT_", "_SE_"]
def sXmlExt : String := ".xml"
def sP7mExt : String := ".p7m"

/-- `METADATA_PATTERN = r'(_MT_|[Mm][Ee][Tt][Aa][Dd][Aa][Tt][Oo])'` applied
by `re.search`: either the literal `_MT_` occurs, or `metadato` occurs up
to letter case. -/
def is_metadata (name : String) : Bool :=
  subB sUnderscoreMT.data name.data || subB sMetadato.data (name.data.map Char.toLower)

/-- `NOTIFICATION_PATTERN = r'_(?:NS|RC|MC|NE|DT|AT|SE)_'` applied by
`re.search`: one of the uppercase markers occurs literally. -/
def is_notification (name : String) : Bool :=
  notifMarks.any (fun p => subB p.data name.data)

/-- `file_path.suffix.lower() in {'.xml', '.p7m'}`. -/
def is_supported_file (name : String) : Bool :=
  lowerStr (pathSuffix name) == sXmlExt || lowerStr (pathSuffix name) == sP7mExt

def sMETADATA : String := "METADATA"
def sNOTIFICATION : String := "NOTIFICATION"
def sINVOICE : String := "INVOICE"
def sUNSUPPORTED : String := "UNSUPPORTED"

/-- `determine_file_type` from `xml_fatture_processor_v8.py`. -/
def determine_file_type (name : String) : String :=
  if is_metadata name then sMETADATA
  else if is_notification name then sNOTIFICATION
  else if is_supported_file name then sINVOICE
  else sUNSUPPORTED

/-! ## Ledger (`update_prima_nota` from `processor_v3.py`) -/

/-- One entry of the `invoices` list of a prima nota file. -/
structure PNEntry where
  id : String
  invoice_number : String
  invoice_date : String
  partner_name : String
  total_amount : Rat
  has_ritenuta : Bool
  importo_ritenuta : Rat
  added_at : String
deriving DecidableEq, Repr

structure PNSummary where
  total_invoices : Nat
  total_amount : Rat
  total_ritenute : Rat
  fatture_con_ritenuta : Nat
  last_updated : String
deriving DecidableEq, Repr

structure PrimaNota where
  company : String
  year : String
  direction : String
  invoices : List PNEntry
  summary : PNSummary
deriving DecidableEq, Repr

def initSummary : PNSummary :=
  { total_invoices := 0, total_amount := 0, total_ritenute := 0
  , fatture_con_ritenuta := 0, last_updated := String.mk [] }

def initPrimaNota (company year direction : String) : PrimaNota :=
  { company := company, year := year, direction := direction
  , invoices := [], summary := initSummary }

/-- The summary block recomputed from the full entry list on every update
(lines 461-469 of `processor_v3.py`). -/
def computeSummary (invs : List PNEntry) (now : String) : PNSummary :=
  { total_invoices := invs.length
  , total_amount := (invs.map PNEntry.total_amount).sum
  , total_ritenute := ((invs.filter PNEntry.has_ritenuta).map PNEntry.importo_ritenuta).sum
  , fatture_con_ritenuta := (invs.filter PNEntry.has_ritenuta).length
  , last_updated := now }

/-- `update_prima_nota`: load the existing ledger (or start empty), append
the new entry, recompute the summary from the full list. -/
def update_prima_nota (existing : Option PrimaNota) (company year direction : String)
    (inv : PNEntry) (now : String) : PrimaNota :=
  let pn := match existing with
    | some p => p
    | none => initPrimaNota company year direction
  let invs := pn.invoices ++ [inv]
  { pn with invoices := invs, summary := computeSummary invs now }

def ledgerStep (company year direction : String) (acc : Option PrimaNota)
    (e : PNEntry × String) : Option PrimaNota :=
  some (update_prima_nota acc company year direction e.1 e.2)

/-- A whole sequence of ledger updates for one key, starting from no file
on disk; each update reads back the state the previous one wrote. -/
def runLedger (company year direction : String) (es : List (PNEntry × String)) : Option PrimaNota :=
  es.foldl (ledgerStep company year direction) none

/-! ## Deduplication index -/

/-- `calculate_content_hash` (v8) and the content half of the v3 key: the
digest of the whitespace-stripped content, truncated to 16 characters.
`sha` is the oracle for `hashlib.sha256(...).hexdigest()`. -/
def calculate_content_hash (sha : String → String) (content : String) : String :=
  String.mk ((sha (stripWs content)).data.take 16)

/-- The record stored per composite key by `AdvancedDuplicateManager`. -/
structure V8Reg where
  file_path : String
  file_hash_md5 : String
  file_hash_sha256 : String
  content_hash : String
  processed_at : String
deriving DecidableEq, Repr

/-- State of `AdvancedDuplicateManager`: the dict `processed_files` and the
set `content_hashes` (both in insertion order). -/
structure DupDB8 where
  processed_files : List (String × V8Reg)
  content_hashes : List String
deriving DecidableEq, Repr

def emptyDupDB8 : DupDB8 := { processed_files := [], content_hashes := [] }

def sUnderscore : String := "_"
def sContentPre : String := "content_"

/-- One registration at `AdvancedDuplicateManager.is_duplicate`: the xml
content together with the file-hash oracle results for the raw file. -/
structure Reg8In where
  file_path : String
  md5h : String
  sha256h : String
  xml : String
  now : String
deriving DecidableEq, Repr

namespace V8

/-- `AdvancedDuplicateManager.is_duplicate`: composite-key check, then the
content-hash-only check, then registration of both. -/
def is_duplicate (sha : String → String) (r : Reg8In) (db : DupDB8) : (Bool × String) × DupDB8 :=
  let content_hash := calculate_content_hash sha r.xml
  let composite_key := r.sha256h ++ sUnderscore ++ content_hash
  if (db.processed_files.map Prod.fst).contains composite_key then
    ((true, composite_key), db)
  else if db.content_hashes.contains content_hash then
    ((true, sContentPre ++ content_hash), db)
  else
    ((false, composite_key),
     { processed_files := db.processed_files ++ [(composite_key,
         { file_path := r.file_path, file_hash_md5 := r.md5h
         , file_hash_sha256 := r.sha256h, content_hash := content_hash
         , processed_at := r.now })]
     , content_hashes := db.content_hashes ++ [content_hash] })

def regStep (sha : String → String) (db : DupDB8) (r : Reg8In) : DupDB8 :=
  (is_duplicate sha r db).2

/-- The manager state after a sequence of registrations, from the empty
state `__init__` creates. -/
def runDB (sha : String → String) (rs : List Reg8In) : DupDB8 :=
  rs.foldl (regStep sha) emptyDupDB8

end V8

def sErrorPre : String := "error_"

/-- `calculate_hash` (v3): md5 hexdigest of the file bytes, or
`error_<token>` with a fresh uuid4 token when reading raises. `raw` is
the readable file content, `none` when unreadable. -/
def calculate_hash (md5 : String → String) (raw : Option String) (tok : String) : String :=
  match raw with
  | some bs => md5 bs
  | none => sErrorPre ++ tok

/-- The record stored per key in `processed_invoices_db` (v3). -/
structure V3Reg where
  file : String
  processed_at : String
deriving DecidableEq, Repr

namespace V3

/-- `is_duplicate` (v3): key is whole-file hash and content hash joined by
an underscore; first registration stores, repeats report duplicate. -/
def is_duplicate (md5 sha : String → String) (raw : Option String) (tok : String)
    (file_name xml now : String) (db : List (String × V3Reg)) :
    (Bool × String) × List (String × V3Reg) :=
  let file_hash := calculate_hash md5 raw tok
  let key := file_hash ++ sUnderscore ++ calculate_content_hash sha xml
  if (db.map Prod.fst).contains key then ((true, key), db)
  else ((false, key), db ++ [(key, { file := file_name, processed_at := now })])

end V3

/-! ## Filesystem model for the ledger write (C7) -/

/-- Primitive filesystem effects of `open(path, 'w')` followed by
`json.dump`: opening with mode `w` truncates at once, the dump then
writes the serialized state. -/
inductive FsOp where
  | openTrunc
  | writeAll (s : String)
deriving DecidableEq, Repr

def applyFsOp (content : String) : FsOp → String
  | .openTrunc => String.mk []
  | .writeAll s => content ++ s

def sLBrace : String := "\x7b"
def sRBrace : String := "\x7d"
def sComma : String := ","

/-- Model of the `json.dump` serialisation of one ledger entry. -/
def renderEntry (e : PNEntry) : String :=
  sLBrace ++ e.id ++ sComma ++ e.invoice_number ++ sComma ++ e.invoice_date ++ sComma
    ++ e.partner_name ++ sComma ++ toString e.total_amount ++ sComma
    ++ toString e.has_ritenuta ++ sComma ++ toString e.importo_ritenuta ++ sComma
    ++ e.added_at ++ sRBrace

/-- Model of the `json.dump` serialisation of the whole prima nota. -/
def renderPN (pn : PrimaNota) : String :=
  sLBrace ++ pn.company ++ sComma ++ pn.year ++ sComma ++ pn.direction ++ sComma
    ++ String.join (pn.invoices.map renderEntry) ++ sComma
    ++ toString pn.summary.total_invoices ++ sComma ++ toString pn.summary.total_amount ++ sComma
    ++ toString pn.summary.total_ritenute ++ sComma ++ toString pn.summary.fatture_con_ritenuta ++ sComma
    ++ pn.summary.last_updated ++ sRBrace

/-- The filesystem operations `update_prima_nota` performs to store the new
state: truncate in place, then write the serialised ledger. -/
def ledgerWriteOps (pn : PrimaNota) : List FsOp := [FsOp.openTrunc, FsOp.writeAll (renderPN pn)]

/-- The observable file content after a failure at each interruption point
of an operation sequence (before, between, after). -/
def crashStates (old : String) (ops : List FsOp) : List String :=
  (List.range (ops.length + 1)).map (fun k => (ops.take k).foldl applyFsOp old)

/-! ## Envelope decoders -/

/-- Outcome of one Python call into an external provider: a value, or an
exception carrying its message. -/
inductive PyRes (α : Type) where
  | ok (a : α)
  | exc (msg : String)
deriving DecidableEq, Repr

def sXmlMarker : String := "<?xml"
def sPythonASN1 : String := "Python ASN1"
def sWindowsAPI : String := "Windows API"
def sOpenSSL : String := "OpenSSL"
def sFAILED : String := "FAILED"
def sDIRECT_XML : String := "DIRECT_XML"
def sNONEm : String := "NONE"

/-- One v3 strategy attempt: an exception or a falsy result skips it, a
non-empty result containing the prologue marker wins. -/
def stratHit (r : PyRes (Option String)) : Option String :=
  match r with
  | .ok (some s) => if s != String.mk [] && containsSub s sXmlMarker then some s else none
  | _ => none

namespace V3

/-- `extract_xml_from_p7m` (v3): the fixed ordered strategy list, each
tried once, first marker-bearing result wins; all failure detail is
discarded. -/
def extract_xml_from_p7m (asn1 win ssl : PyRes (Option String)) : Option String × String :=
  match stratHit asn1 with
  | some s => (some s, sPythonASN1)
  | none =>
    match stratHit win with
    | some s => (some s, sWindowsAPI)
    | none =>
      match stratHit ssl with
      | some s => (some s, sOpenSSL)
      | none => (none, sFAILED)

/-- The decode dispatch of `process_file` (v3, lines 486-493): `.p7m`
files go to the strategy list, everything else is read as text and
passed through with method `DIRECT_XML`. -/
def decodeStage (name text : String) (asn1 win ssl : PyRes (Option String)) : Option String × String :=
  if lowerStr (pathSuffix name) == sP7mExt then extract_xml_from_p7m asn1 win ssl
  else (some text, sDIRECT_XML)

end V3

/-- Oracle for the asn1crypto strategy of `AdvancedP7MDecoder`:
availability flag, the `ContentInfo.load` call, the direct content
extraction (method 1) and the recursive search (method 2). -/
structure Asn1Oracle where
  available : Bool
  load : PyRes Unit
  m1 : PyRes String
  m2 : PyRes (Option String)
deriving DecidableEq, Repr

/-- Oracle for the Windows Crypto API strategy. -/
structure WinOracle where
  available : Bool
  m1 : PyRes String
  m2 : PyRes String
deriving DecidableEq, Repr

/-- Outcome of one `subprocess.run` of an OpenSSL command. -/
inductive CmdRes where
  | tout
  | exc (msg : String)
  | done (rc : Int) (out : String) (err : String)
deriving DecidableEq, Repr

def sAsn1NotAvail : String := "ASN1Crypto non disponibile"
def sAsn1M1 : String := "ASN1 metodo 1: "
def sAsn1M2 : String := "ASN1 metodo 2: "
def sAsn1Gen : String := "ASN1 generale: "
def sWinNotAvail : String := "Windows Crypto API non disponibile"
def sWinM1 : String := "Windows API metodo 1: "
def sWinM2 : String := "Windows API metodo 2: "
def sSslCmd : String := "OpenSSL comando "
def sSslTimeout : String := ": timeout"
def sSslColon : String := ": "
def sNotP7m : String := "Non è un file P7M"
def sReadErr : String := "Errore lettura file: "
def sASN1 : String := "ASN1"
def sWINDOWS_API : String := "WINDOWS_API"
def sOPENSSL : String := "OPENSSL"

/-- Method 2 of the asn1 strategy: a truthy recursive-search result wins,
`None` falls through silently, an exception is recorded. -/
def asn1Metodo2 (errs : List String) (m2 : PyRes (Option String)) : Option String × List String :=
  match m2 with
  | .ok (some s) => if s != String.mk [] then (some s, errs) else (none, errs)
  | .ok none => (none, errs)
  | .exc m => (none, errs ++ [sAsn1M2 ++ m])

/-- `AdvancedP7MDecoder.extract_xml_from_p7m_asn1`. -/
def extract_xml_from_p7m_asn1 (o : Asn1Oracle) : Option String × List String :=
  if !o.available then (none, [sAsn1NotAvail])
  else
    match o.load with
    | .exc m => (none, [sAsn1Gen ++ m])
    | .ok _ =>
      match o.m1 with
      | .ok s =>
        if s != String.mk [] && containsSub s sXmlMarker then (some s, [])
        else asn1Metodo2 [] o.m2
      | .exc m => asn1Metodo2 [sAsn1M1 ++ m] o.m2

/-- One Windows API decode attempt: marker-bearing output wins, a failed
content check falls through silently, an exception is recorded. -/
def winMethod (errs : List String) (tag : String) (r : PyRes String) : Option String × List String :=
  match r with
  | .ok s => if s != String.mk [] && containsSub s sXmlMarker then (some s, errs) else (none, errs)
  | .exc m => (none, errs ++ [tag ++ m])

/-- `AdvancedP7MDecoder.extract_xml_from_p7m_windows`. -/
def extract_xml_from_p7m_windows (o : WinOracle) : Option String × List String :=
  if !o.available then (none, [sWinNotAvail])
  else
    match winMethod [] sWinM1 o.m1 with
    | (some s, e1) => (some s, e1)
    | (none, e1) =>
      match winMethod e1 sWinM2 o.m2 with
      | (some s, e2) => (some s, e2)
      | (none, e2) => (none, e2)

/-- Success check of one OpenSSL command: exit 0 with a marker in stdout,
else a marker anywhere in stderr. -/
def sslSuccess (rc : Int) (out err : String) : Option String :=
  (if rc == 0 && out != String.mk [] then
     match pyFind out sXmlMarker with
     | some i => some (fromIdx out i)
     | none => none
   else none).orElse (fun _ =>
     if err != String.mk [] then
       match pyFind err sXmlMarker with
       | some i => if fromIdx err i != String.mk [] then some (fromIdx err i) else none
       | none => none
     else none)

/-- The loop over the six OpenSSL command variants: timeouts and
exceptions are recorded, a nonzero exit without marker falls through
silently; the first success returns the errors gathered so far. -/
def sslLoop (i : Nat) (acc : List String) : List CmdRes → Option String × List String
  | [] => (none, acc)
  | r :: rs =>
    match r with
    | .tout => sslLoop (i + 1) (acc ++ [sSslCmd ++ toString (i + 1) ++ sSslTimeout]) rs
    | .exc m => sslLoop (i + 1) (acc ++ [sSslCmd ++ toString (i + 1) ++ sSslColon ++ m]) rs
    | .done rc out err =>
      match sslSuccess rc out err with
      | some x => (some x, acc)
      | none => sslLoop (i + 1) acc rs

/-- `AdvancedP7MDecoder.extract_xml_from_p7m_openssl`. -/
def extract_xml_from_p7m_openssl (rs : List CmdRes) : Option String × List String :=
  sslLoop 0 [] rs

/-- Shared tail of `decrypt_p7m_file`: try OpenSSL after the earlier
strategies failed with `accErrs` collected. -/
def sslTail (accErrs : List String) (so : List CmdRes) : Option String × List String × String :=
  match extract_xml_from_p7m_openssl so with
  | (some x, _) => (some x, accErrs, sOPENSSL)
  | (none, e3) => (none, accErrs ++ e3, sFAILED)

/-- `AdvancedP7MDecoder.decrypt_p7m_file`: the multi-strategy fallback,
accumulating each attempted strategy's recorded messages in order;
the Windows strategy only runs on Windows. -/
def decrypt_p7m_file (isWin : Bool) (name : String) (readRes : PyRes Unit)
    (ao : Asn1Oracle) (wo : WinOracle) (so : List CmdRes) : Option String × List String × String :=
  if !endsWithStr (lowerStr name) sP7mExt then (none, [sNotP7m], sNONEm)
  else
    match readRes with
    | .exc m => (none, [sReadErr ++ m], sFAILED)
    | .ok _ =>
      match extract_xml_from_p7m_asn1 ao with
      | (some x, _) => (some x, [], sASN1)
      | (none, e1) =>
        if isWin then
          match extract_xml_from_p7m_windows wo with
          | (some x, _) => (some x, e1, sWINDOWS_API)
          | (none, e2) => sslTail (e1 ++ e2) so
        else sslTail e1 so

/-! ## XML document model (ElementTree elements after parsing) -/

/-- An ElementTree element: tag, text, ordered children. -/
inductive XNode where
  | mk (tag : String) (text : Option String) (children : List XNode)

def XNode.tag : XNode → String
  | .mk t _ _ => t

def XNode.text : XNode → Option String
  | .mk _ x _ => x

def XNode.children : XNode → List XNode
  | .mk _ _ cs => cs

def rBraceChar : Char := Char.ofNat 125

/-- `el.tag.split(...)[1]` on the namespace brace: keep what follows the
first closing brace, or the whole tag when there is none. -/
def stripNsTag (t : String) : String :=
  match t.data.dropWhile (fun c => c != rBraceChar) with
  | [] => t
  | _ :: rest => String.mk rest

mutual

/-- The namespace-stripping pass both parsers run over every element. -/
def stripNs : XNode → XNode
  | .mk t x cs => .mk (stripNsTag t) x (stripNsL cs)

def stripNsL : List XNode → List XNode
  | [] => []
  | c :: cs => stripNs c :: stripNsL cs

end

mutual

/-- Descendant-or-self axis in document order (ElementTree `iter()`). -/
def dos : XNode → List XNode
  | .mk t x cs => .mk t x cs :: dosL cs

def dosL : List XNode → List XNode
  | [] => []
  | c :: cs => dos c ++ dosL cs

end

/-- One child step of an ElementPath location path. -/
def selTag (ns : List XNode) (t : String) : List XNode :=
  ns.flatMap (fun n => n.children.filter (fun c => c.tag == t))

/-- `node.find(tag)` for a plain child tag. -/
def childNamed (n : XNode) (t : String) : Option XNode :=
  (n.children.filter (fun c => c.tag == t)).head?

/-- `node.find('A/B/...')` for a relative child path. -/
def findRel (n : XNode) (segs : List String) : Option XNode :=
  (segs.foldl selTag [n]).head?

/-- `root.find('.//A/B/...')`: descendant-or-self, then child steps, first
match in evaluation order. -/
def findDD (root : XNode) (segs : List String) : Option XNode :=
  (segs.foldl selTag (dos root)).head?

/-- The `get_text` helper of both parsers over a `.//` path: `None` for a
missing element or falsy raw text, the stripped text otherwise. -/
def getTextDD (root : XNode) (segs : List String) : Option String :=
  match findDD root segs with
  | none => none
  | some n =>
    match n.text with
    | none => none
    | some t => if t == String.mk [] then none else some (pyStrip t)

/-! ## Numeric and date field models -/

def digitsVal (l : List Char) : Option Nat :=
  if l.isEmpty then none
  else if l.all Char.isDigit then some (l.foldl (fun a c => a * 10 + (c.toNat - 48)) 0)
  else none

def dotChar : Char := '.'
def commaChar : Char := ','
def dashChar : Char := '-'
def plusChar : Char := '+'

def parseFloatCore (l : List Char) : Option Rat :=
  match l.splitOn dotChar with
  | [ip] => (digitsVal ip).map (fun n => (n : Rat))
  | [ip, fp] =>
    if ip.isEmpty then
      (digitsVal fp).map (fun f => (f : Rat) / (10 : Rat) ^ fp.length)
    else if fp.isEmpty then (digitsVal ip).map (fun n => (n : Rat))
    else
      match digitsVal ip, digitsVal fp with
      | some n, some f => some ((n : Rat) + (f : Rat) / (10 : Rat) ^ fp.length)
      | _, _ => none
  | _ => none

/-- Model of Python `float(s)` on the decimal forms the invoices carry. -/
def parseFloatPy (s : String) : Option Rat :=
  let t := ((s.data.dropWhile isWs).reverse.dropWhile isWs).reverse
  match t with
  | [] => none
  | c :: rest =>
    if c == dashChar then (parseFloatCore rest).map Neg.neg
    else if c == plusChar then parseFloatCore rest
    else parseFloatCore t

/-- `text.replace(',', '.')` before the float conversion. -/
def replaceCommaDot (s : String) : String :=
  String.mk (s.data.map (fun c => if c == commaChar then dotChar else c))

structure PyDate where
  y : Nat
  m : Nat
  d : Nat
deriving DecidableEq, Repr

def isLeap (y : Nat) : Bool := y % 4 == 0 && (y % 100 != 0 || y % 400 == 0)

def daysInMonth (y m : Nat) : Nat :=
  if m == 2 then (if isLeap y then 29 else 28)
  else if m == 4 || m == 6 || m == 9 || m == 11 then 30
  else 31

/-- `datetime.strptime(s, '%Y-%m-%d').date()`: a four-digit year, one or
two digit month and day, nothing left over, calendar-valid. -/
def parseDateYMD (s : String) : Option PyDate :=
  match s.data.splitOn dashChar with
  | [ys, ms, ds] =>
    if ys.length == 4 && (ms.length == 1 || ms.length == 2) && (ds.length == 1 || ds.length == 2) then
      match digitsVal ys, digitsVal ms, digitsVal ds with
      | some y, some m, some d =>
        if 1 ≤ y ∧ 1 ≤ m ∧ m ≤ 12 ∧ 1 ≤ d ∧ d ≤ daysInMonth y m then some ⟨y, m, d⟩ else none
      | _, _, _ => none
    else none
  | _ => none

/-! ## Invoice schema extraction -/

def sFEHeader : String := "FatturaElettronicaHeader"
def sFEBody : String := "FatturaElettronicaBody"
def sCedente : String := "CedentePrestatore"
def sCessionario : String := "CessionarioCommittente"
def sDatiGenerali : String := "DatiGenerali"
def sDGDoc : String := "DatiGeneraliDocumento"
def sDatiAnagrafici : String := "DatiAnagrafici"
def sAnagrafica : String := "Anagrafica"
def sCodiceFiscale : String := "CodiceFiscale"
def sIdFiscaleIVA : String := "IdFiscaleIVA"
def sIdCodice : String := "IdCodice"
def sDenominazione : String := "Denominazione"
def sNome : String := "Nome"
def sCognome : String := "Cognome"
def sDatiRitenuta : String := "DatiRitenuta"
def sImportoRitenuta : String := "ImportoRitenuta"
def sTipoRitenuta : String := "TipoRitenuta"
def sImportoTot : String := "ImportoTotaleDocumento"
def sDataTag : String := "Data"
def sNumero : String := "Numero"
def sTipoDocumento : String := "TipoDocumento"
def sDatiCassa : String := "DatiCassaPrevidenziale"
def sImportoCassa : String := "ImportoContributoCassa"
def sND : String := "N/D"
def sMancanti : String := "Dati anagrafici mancanti"
def sEMESSE : String := "EMESSE"
def sRICEVUTE : String := "RICEVUTE"
def sOKs : String := "OK"
def sSpace : String := " "

/-- `cedente_id_fiscale` (on the namespace-stripped root). -/
def cedIdFisc (root : XNode) : String :=
  pyOr (getTextDD root [sCedente, sDatiAnagrafici, sCodiceFiscale]) sND

/-- `cedente_partita_iva`. -/
def cedPIva (root : XNode) : String :=
  pyOr (getTextDD root [sCedente, sDatiAnagrafici, sIdFiscaleIVA, sIdCodice]) sND

/-- `cessionario_id_fiscale`. -/
def cesIdFisc (root : XNode) : String :=
  pyOr (getTextDD root [sCessionario, sDatiAnagrafici, sCodiceFiscale]) sND

/-- `cessionario_partita_iva`. -/
def cesPIva (root : XNode) : String :=
  pyOr (getTextDD root [sCessionario, sDatiAnagrafici, sIdFiscaleIVA, sIdCodice]) sND

/-- `sender_vat`: VAT id unless it fell back to the sentinel, else the tax
code (line 241 of `processor_v3.py`). -/
def senderVat (root : XNode) : String :=
  if cedPIva root != sND then cedPIva root else cedIdFisc root

/-- `receiver_vat` (line 242). -/
def receiverVat (root : XNode) : String :=
  if cesPIva root != sND then cesPIva root else cesIdFisc root

/-- v3 `get_float`: absent or falsy text gives 0.0; a present value that
`float()` rejects raises (here: `none`). -/
def getFloatV3 (root : XNode) (segs : List String) : Option Rat :=
  match getTextDD root segs with
  | none => some 0
  | some t => if t == String.mk [] then some 0 else parseFloatPy (replaceCommaDot t)

/-- v8 `get_float`: same chain but the conversion error is swallowed. -/
def getFloatV8 (root : XNode) (segs : List String) : Rat :=
  match getTextDD root segs with
  | none => 0
  | some t => if t == String.mk [] then 0 else (parseFloatPy (replaceCommaDot t)).getD 0

namespace V3

/-- The name+surname branch of the v3 helper: formatting raises (`none`)
when either element has no text. -/
def nomeBranch (n : XNode) : Option String :=
  match childNamed n sNome, childNamed n sCognome with
  | some nm, some cg =>
    match nm.text, cg.text with
    | some a, some b => some (pyStrip a ++ sSpace ++ pyStrip b)
    | _, _ => none
  | _, _ => some sMancanti

/-- `get_denominazione_or_nome_cognome` (v3): denomination if its raw text
is truthy, else first+last name, else the sentinel. -/
def get_denominazione_or_nome_cognome (node : Option XNode) : Option String :=
  match node with
  | none => some sMancanti
  | some n =>
    match childNamed n sDenominazione with
    | some d =>
      match d.text with
      | some t => if t != String.mk [] then some (pyStrip t) else nomeBranch n
      | none => nomeBranch n
    | none => nomeBranch n

end V3

def textStripOrEmpty (n : XNode) : String :=
  match n.text with
  | some t => if t != String.mk [] then pyStrip t else String.mk []
  | none => String.mk []

namespace V8

/-- The name+surname branch of the v8 helper: total, missing texts fall
back to the sentinel. -/
def nomeBranch (n : XNode) : String :=
  match childNamed n sNome, childNamed n sCognome with
  | some nm, some cg =>
    let a := textStripOrEmpty nm
    let b := textStripOrEmpty cg
    if a != String.mk [] && b != String.mk [] then a ++ sSpace ++ b else sMancanti
  | _, _ => sMancanti

/-- `get_denominazione_or_nome_cognome` (v8): total version of the chain. -/
def get_denominazione_or_nome_cognome (node : Option XNode) : String :=
  match node with
  | none => sMancanti
  | some n =>
    match childNamed n sDenominazione with
    | some d =>
      match d.text with
      | some t => if t != String.mk [] then pyStrip t else nomeBranch n
      | none => nomeBranch n
    | none => nomeBranch n

end V8

/-- The complete invoice record `parse_invoice_completo` builds. -/
structure FatturaCompleta where
  file_name : String
  invoice_number : String
  invoice_date : PyDate
  invoice_year : String
  total_amount : Rat
  cedente_denominazione : String
  cedente_id_fiscale : String
  cedente_partita_iva : String
  cessionario_denominazione : String
  cessionario_id_fiscale : String
  cessionario_partita_iva : String
  has_ritenuta : Bool
  importo_ritenuta : Rat
  tipo_ritenuta : String
  company_name : String
  direction : String
  status : String
deriving DecidableEq, Repr

/-- The tuple `parse_invoice_completo` returns: record, matched vat,
direction, document type, year. -/
abbrev ParseOut := FatturaCompleta × String × String × Option String × String

/-- The `FatturaCompleta` value built at lines 270-291 of
`processor_v3.py`, from the extracted pieces. -/
def fatturaOf (root : XNode) (invoice_date : PyDate) (total_amount : Rat)
    (cden cesden : String) (dgDoc : XNode) (imp : Rat) (company : String)
    (dirRes : String × String) : FatturaCompleta :=
  { file_name := String.mk []
  , invoice_number := pyOr (getTextDD root [sDGDoc, sNumero]) sND
  , invoice_date := invoice_date
  , invoice_year := toString invoice_date.y
  , total_amount := total_amount
  , cedente_denominazione := cden
  , cedente_id_fiscale := cedIdFisc root
  , cedente_partita_iva := cedPIva root
  , cessionario_denominazione := cesden
  , cessionario_id_fiscale := cesIdFisc root
  , cessionario_partita_iva := cesPIva root
  , has_ritenuta := (childNamed dgDoc sDatiRitenuta).isSome
  , importo_ritenuta := imp
  , tipo_ritenuta := if (childNamed dgDoc sDatiRitenuta).isSome then
      pyOr (getTextDD root [sDatiRitenuta, sTipoRitenuta]) sND else sND
  , company_name := company
  , direction := dirRes.2
  , status := sOKs }

namespace V3

/-- `parse_invoice_completo` (v3): namespace strip, anagraphic extraction
with raises modelled as `none`, portfolio direction resolution, strict
date parse, withholding subtree, record construction. A `none` result
covers both a caught exception and the explicit not-in-portfolio return. -/
def parse_invoice_completo (pf : List (String × String)) (today : PyDate)
    (root0 : XNode) : Option ParseOut :=
  let root := stripNs root0
  (childNamed root sFEHeader).bind (fun header =>
  (childNamed root sFEBody).bind (fun body =>
  (childNamed body sDatiGenerali).bind (fun datiGenerali =>
  (childNamed header sCedente).bind (fun cedente =>
  (get_denominazione_or_nome_cognome (findRel cedente [sDatiAnagrafici, sAnagrafica])).bind (fun cden =>
  (childNamed header sCessionario).bind (fun cessionario =>
  (get_denominazione_or_nome_cognome (findRel cessionario [sDatiAnagrafici, sAnagrafica])).bind (fun cesden =>
  (if (pf.lookup (senderVat root)).isSome then some (senderVat root, sEMESSE)
   else if (pf.lookup (receiverVat root)).isSome then some (receiverVat root, sRICEVUTE)
   else none).bind (fun dirRes =>
  (match getTextDD root [sDGDoc, sDataTag] with
   | some t => if t != String.mk [] then parseDateYMD t else some today
   | none => some today).bind (fun invoice_date =>
  (childNamed datiGenerali sDGDoc).bind (fun dgDoc =>
  (if (childNamed dgDoc sDatiRitenuta).isSome then getFloatV3 root [sDatiRitenuta, sImportoRitenuta]
   else some 0).bind (fun importo_ritenuta =>
  (getFloatV3 root [sImportoTot]).bind (fun total_amount =>
  (pf.lookup dirRes.1).bind (fun company =>
  some (fatturaOf root invoice_date total_amount cden cesden dgDoc importo_ritenuta company dirRes
       , dirRes.1, dirRes.2, getTextDD root [sDGDoc, sTipoDocumento], toString invoice_date.y))))))))))))))

end V3

/-- The dict `parse_invoice_xml_advanced` returns. -/
structure Inv8 where
  invoice_number : String
  invoice_date : Option PyDate
  invoice_year : String
  total_amount : Rat
  cedente_denominazione : String
  cedente_id_fiscale : String
  cedente_partita_iva : String
  cessionario_denominazione : String
  cessionario_id_fiscale : String
  cessionario_partita_iva : String
  has_ritenuta : Bool
  importo_ritenuta : Rat
  tipo_ritenuta : String
  has_cassa : Bool
  importo_cassa : Rat
deriving DecidableEq, Repr

/-- ElementTree truthiness of an optional element: present AND with at
least one child (`if not header` uses element truthiness). -/
def pyTruthyElem (o : Option XNode) : Bool :=
  match o with
  | some n => !n.children.isEmpty
  | none => false

/-- The date/year computation of v8: a present but unparseable date is
swallowed, the year then stays the current year. -/
def dateYearV8 (today : PyDate) (t : Option String) : Option PyDate × String :=
  match t with
  | some s =>
    if s != String.mk [] then
      match parseDateYMD s with
      | some d => (some d, toString d.y)
      | none => (none, toString today.y)
    else (none, toString today.y)
  | none => (none, toString today.y)

/-- The record fields `parse_invoice_xml_advanced` assembles once the
required elements exist. -/
def inv8Of (today : PyDate) (root cedente cessionario dgDoc : XNode) : Inv8 :=
  { invoice_number := pyOr (getTextDD root [sDGDoc, sNumero]) sND
  , invoice_date := (dateYearV8 today (getTextDD root [sDGDoc, sDataTag])).1
  , invoice_year := (dateYearV8 today (getTextDD root [sDGDoc, sDataTag])).2
  , total_amount := getFloatV8 root [sImportoTot]
  , cedente_denominazione := V8.get_denominazione_or_nome_cognome (findRel cedente [sDatiAnagrafici, sAnagrafica])
  , cedente_id_fiscale := cedIdFisc root
  , cedente_partita_iva := cedPIva root
  , cessionario_denominazione := V8.get_denominazione_or_nome_cognome (findRel cessionario [sDatiAnagrafici, sAnagrafica])
  , cessionario_id_fiscale := cesIdFisc root
  , cessionario_partita_iva := cesPIva root
  , has_ritenuta := (childNamed dgDoc sDatiRitenuta).isSome
  , importo_ritenuta := if (childNamed dgDoc sDatiRitenuta).isSome then getFloatV8 root [sDatiRitenuta, sImportoRitenuta] else 0
  , tipo_ritenuta := if (childNamed dgDoc sDatiRitenuta).isSome then pyOr (getTextDD root [sDatiRitenuta, sTipoRitenuta]) sND else sND
  , has_cassa := (childNamed dgDoc sDatiCassa).isSome
  , importo_cassa := if (childNamed dgDoc sDatiCassa).isSome then getFloatV8 root [sDatiCassa, sImportoCassa] else 0 }

namespace V8

/-- `parse_invoice_xml_advanced` (v8): element-truthiness guards on the
header parts (`if not header`, `if not all([...])`), then total field
extraction with the tolerant date parse; a missing `DatiGenerali` or
`DatiGeneraliDocumento` raises and yields `none`. -/
def parse_invoice_xml_advanced (today : PyDate) (root0 : XNode) : Option Inv8 :=
  let root := stripNs root0
  let headerO := childNamed root sFEHeader
  if !pyTruthyElem headerO then none
  else
    headerO.bind (fun header =>
      let cedenteO := childNamed header sCedente
      let cessionarioO := childNamed header sCessionario
      let bodyO := childNamed root sFEBody
      if !(pyTruthyElem cedenteO && pyTruthyElem cessionarioO && pyTruthyElem bodyO) then none
      else
        cedenteO.bind (fun cedente =>
          cessionarioO.bind (fun cessionario =>
            bodyO.bind (fun body =>
              (childNamed body sDatiGenerali).bind (fun dati =>
                (childNamed dati sDGDoc).bind (fun dgDoc =>
                  some (inv8Of today root cedente cessionario dgDoc)))))))

end V8

/-! ## Orchestrated per-file processing (v3 `process_file`) -/

def sDash : String := "-"
def sZeroPad : String := "0"

def pad2 (n : Nat) : String := if n < 10 then sZeroPad ++ toString n else toString n

/-- `date.isoformat()`. -/
def isoDate (d : PyDate) : String := toString d.y ++ sDash ++ pad2 d.m ++ sDash ++ pad2 d.d

/-- The structured JSON record `save_organized_files` writes (provenance
and parsed fields; filesystem copies of related files are out of scope). -/
structure SaveRec where
  id : String
  fileName : String
  company_name : String
  direction : String
  invoice_number : String
  invoice_date : PyDate
  invoice_year : String
  total_amount : Rat
  partner_name : String
  partner_vat : String
  has_ritenuta : Bool
  importo_ritenuta : Rat
  tipo_ritenuta : String
  method_used : String
  file_hash : String
deriving DecidableEq, Repr

def saveRecOf (f : FatturaCompleta) (fname uuid method fileHash : String) : SaveRec :=
  { id := uuid
  , fileName := fname
  , company_name := f.company_name
  , direction := f.direction
  , invoice_number := f.invoice_number
  , invoice_date := f.invoice_date
  , invoice_year := f.invoice_year
  , total_amount := f.total_amount
  , partner_name := if f.direction == sEMESSE then f.cessionario_denominazione else f.cedente_denominazione
  , partner_vat := if f.direction == sEMESSE then f.cessionario_partita_iva else f.cedente_partita_iva
  , has_ritenuta := f.has_ritenuta
  , importo_ritenuta := f.importo_ritenuta
  , tipo_ritenuta := f.tipo_ritenuta
  , method_used := method
  , file_hash := fileHash }

/-- The ledger entry `update_prima_nota` appends, built from the record. -/
def entryOf (r : SaveRec) (now : String) : PNEntry :=
  { id := r.id, invoice_number := r.invoice_number, invoice_date := isoDate r.invoice_date
  , partner_name := r.partner_name, total_amount := r.total_amount
  , has_ritenuta := r.has_ritenuta, importo_ritenuta := r.importo_ritenuta, added_at := now }

/-- Store under a {company, direction, year} key. -/
def setLedger (ls : List ((String × String × String) × PrimaNota))
    (k : String × String × String) (v : PrimaNota) :
    List ((String × String × String) × PrimaNota) :=
  if (ls.lookup k).isSome then ls.map (fun p => if p.1 == k then (k, v) else p)
  else ls ++ [(k, v)]

/-- The mutable state `process_file` touches: duplicate db, per-key
ledgers, the written archive records. -/
structure V3State where
  dupDB : List (String × V3Reg)
  ledgers : List ((String × String × String) × PrimaNota)
  archived : List SaveRec
deriving DecidableEq, Repr

structure ProcessingResult where
  file_name : String
  status : String
  method_used : String
  error_message : Option String
  company_name : Option String
  invoice_year : Option String
  hash_md5 : Option String
  is_duplicate : Bool
  has_ritenuta : Bool
  importo_ritenuta : Rat
deriving DecidableEq, Repr

def sKO : String := "KO"
def sSKIPPED : String := "SKIPPED"
def sExtractFailMsg : String := "Estrazione P7M fallita"
def sParseFailMsg : String := "Parsing fallito o fattura non del portfolio"
def sDupPre : String := "Duplicato: "

/-- Oracle bundle for one `process_file` call: the three decode providers,
the ElementTree string-to-tree step, the two digest functions, and the
fresh token / uuid / clock draws of the call. -/
structure V3Oracles where
  asn1 : PyRes (Option String)
  win : PyRes (Option String)
  ssl : PyRes (Option String)
  xmlTree : String → Option XNode
  md5o : String → String
  shao : String → String
  tok : String
  uuid : String
  now : String

namespace V3

/-- The archive step of `save_organized_files`: write the structured
record and run the ledger read-modify-write for the invoice's key. -/
def save_organized_files (fname : String) (f : FatturaCompleta)
    (method uuid now fileHash : String) (st : V3State) : V3State :=
  let r := saveRecOf f fname uuid method fileHash
  let k := (f.company_name, f.direction, f.invoice_year)
  let pn := update_prima_nota (st.ledgers.lookup k) f.company_name f.invoice_year f.direction (entryOf r now) now
  { st with archived := st.archived ++ [r], ledgers := setLedger st.ledgers k pn }

/-- `process_file` (v3): decode, parse, duplicate check, archive; the
not-parsed and not-in-portfolio outcomes return before any write. -/
def process_file (pf : List (String × String)) (today : PyDate) (oc : V3Oracles)
    (fname text : String) (raw : Option String) (st : V3State) :
    ProcessingResult × Option FatturaCompleta × V3State :=
  let base : ProcessingResult :=
    { file_name := fname, status := sKO, method_used := sNONEm
    , error_message := none, company_name := none, invoice_year := none, hash_md5 := none
    , is_duplicate := false, has_ritenuta := false, importo_ritenuta := 0 }
  match decodeStage fname text oc.asn1 oc.win oc.ssl with
  | (none, _) => ({ base with error_message := some sExtractFailMsg }, none, st)
  | (some xml, method) =>
    match (oc.xmlTree xml).bind (parse_invoice_completo pf today) with
    | none => ({ base with method_used := method, error_message := some sParseFailMsg }, none, st)
    | some out =>
      let fat := { out.1 with file_name := fname }
      let res1 := { base with
        method_used := method,
        company_name := some fat.company_name,
        invoice_year := some fat.invoice_year,
        hash_md5 := some (calculate_hash oc.md5o raw oc.tok),
        has_ritenuta := fat.has_ritenuta,
        importo_ritenuta := fat.importo_ritenuta }
      match is_duplicate oc.md5o oc.shao raw oc.tok fname xml oc.now st.dupDB with
      | ((true, key), db2) =>
        let resD := { res1 with
          status := sSKIPPED,
          is_duplicate := true,
          error_message := some (sDupPre ++ key) }
        (resD, some fat, { st with dupDB := db2 })
      | ((false, _), db2) =>
        let st1 : V3State := { st with dupDB := db2 }
        let st2 := save_organized_files fname fat method oc.uuid oc.now (calculate_hash oc.md5o raw oc.tok) st1
        ({ res1 with status := sOKs }, some fat, st2)

end V3

/-! ## Auxiliary definitions used by the verification -/

/-- Entry list of an optional ledger state. -/
def invsOf : Option PrimaNota → List PNEntry
  | some p => p.invoices
  | none => []

/-- Structural invariant of every reachable `AdvancedDuplicateManager`
state: each stored key splits into a file hash and a registered content
hash of the digest's truncated length. -/
def DBInv (db : DupDB8) : Prop :=
  ∀ p ∈ db.processed_files,
    ∃ f c, p.1 = f ++ sUnderscore ++ c ∧ c ∈ db.content_hashes ∧ c.data.length = 16

/-- The `DatiGeneraliDocumento` element of a parsed invoice, as the v3
parser reaches it (body, then general data, then the document block). -/
def v3DgDoc (root0 : XNode) : Option XNode :=
  (childNamed (stripNs root0) sFEBody).bind
    (fun b => (childNamed b sDatiGenerali).bind (fun d => childNamed d sDGDoc))

/-- The stripped text of an element when the element exists and its raw
text is truthy. -/
def truthyText (o : Option XNode) : Option String :=
  match o with
  | some n =>
    match n.text with
    | some t => if t != String.mk [] then some (pyStrip t) else none
    | none => none
  | none => none

/-- Modelled from the spec: the first+last-name fallback of the display
name chain. -/
def specNomeChain (n : XNode) : String :=
  match truthyText (childNamed n sNome), truthyText (childNamed n sCognome) with
  | some a, some b =>
    if a != String.mk [] && b != String.mk [] then a ++ sSpace ++ b else sMancanti
  | _, _ => sMancanti

/-- Modelled from the spec: "Party display name: prefer the
company-denomination field; fall back to concatenated first+last name;
otherwise a sentinel missing value" — the refinement target compared
with the source helper. -/
def specDenomChain (node : Option XNode) : String :=
  match node with
  | none => sMancanti
  | some n =>
    match truthyText (childNamed n sDenominazione) with
    | some s => s
    | none => specNomeChain n

/-- Modelled from the spec: the tax-code fallback of the identity chain. -/
def specTaxCf (cf : Option String) : String :=
  match cf with
  | some c => if c != String.mk [] then c else sND
  | none => sND

/-- Modelled from the spec: "Party tax identity: prefer VAT id; fall back
to tax code; if both absent, mark unavailable" — refinement target. -/
def specTaxIdChain (vat cf : Option String) : String :=
  match vat with
  | some v => if v != String.mk [] then v else specTaxCf cf
  | none => specTaxCf cf

/-- Leaf element with text. -/
def leafT (t x : String) : XNode := XNode.mk t (some x) []

/-- Element with children only. -/
def elT (t : String) (cs : List XNode) : XNode := XNode.mk t none cs

def dPf : List (String × String) := [("02327190845", "VIZZI_GIUSEPPE")]
def dToday : PyDate := ⟨2025, 1, 1⟩
def dBanana : String := "banana"
def dDateStr : String := "2024-03-15"

/-- A complete in-portfolio invoice document. -/
def dTree : XNode := elT "FatturaElettronica" [
  elT "FatturaElettronicaHeader" [
    elT "CedentePrestatore" [
      elT "DatiAnagrafici" [
        elT "IdFiscaleIVA" [leafT "IdPaese" "IT", leafT "IdCodice" "02327190845"],
        elT "Anagrafica" [leafT "Denominazione" "VIZZI GIUSEPPE"]]],
    elT "CessionarioCommittente" [
      elT "DatiAnagrafici" [
        leafT "CodiceFiscale" "RSSMRA80A01H501U",
        elT "Anagrafica" [leafT "Nome" "Mario", leafT "Cognome" "Rossi"]]]],
  elT "FatturaElettronicaBody" [
    elT "DatiGenerali" [
      elT "DatiGeneraliDocumento" [
        leafT "TipoDocumento" "TD01",
        leafT "Data" "2024-03-15",
        leafT "Numero" "42",
        elT "DatiRitenuta" [leafT "TipoRitenuta" "RT01", leafT "ImportoRitenuta" "20,00"],
        leafT "ImportoTotaleDocumento" "122,00"]]]]

/-- The same invoice with an unparseable date. -/
def dBadDateTree : XNode := elT "FatturaElettronica" [
  elT "FatturaElettronicaHeader" [
    elT "CedentePrestatore" [
      elT "DatiAnagrafici" [
        elT "IdFiscaleIVA" [leafT "IdCodice" "02327190845"],
        elT "Anagrafica" [leafT "Denominazione" "VIZZI GIUSEPPE"]]],
    elT "CessionarioCommittente" [
      elT "DatiAnagrafici" [
        leafT "CodiceFiscale" "RSSMRA80A01H501U",
        elT "Anagrafica" [leafT "Denominazione" "ROSSI SRL"]]]],
  elT "FatturaElettronicaBody" [
    elT "DatiGenerali" [
      elT "DatiGeneraliDocumento" [
        leafT "Data" "banana",
        leafT "Numero" "42",
        leafT "ImportoTotaleDocumento" "10.0"]]]]

/-- The same invoice with no date element and no withholding block. -/
def dNoDateTree : XNode := elT "FatturaElettronica" [
  elT "FatturaElettronicaHeader" [
    elT "CedentePrestatore" [
      elT "DatiAnagrafici" [
        elT "IdFiscaleIVA" [leafT "IdCodice" "02327190845"],
        elT "Anagrafica" [leafT "Denominazione" "VIZZI GIUSEPPE"]]],
    elT "CessionarioCommittente" [
      elT "DatiAnagrafici" [
        leafT "CodiceFiscale" "RSSMRA80A01H501U",
        elT "Anagrafica" [leafT "Denominazione" "ROSSI SRL"]]]],
  elT "FatturaElettronicaBody" [
    elT "DatiGenerali" [
      elT "DatiGeneraliDocumento" [
        leafT "Numero" "7",
        leafT "ImportoTotaleDocumento" "10.0"]]]]

def dOut : ParseOut := (V3.parse_invoice_completo dPf dToday dTree).get (by decide)
def dOutND : ParseOut := (V3.parse_invoice_completo dPf dToday dNoDateTree).get (by decide)
def dOut8 : Inv8 := (V8.parse_invoice_xml_advanced dToday dBadDateTree).get (by decide)
def dNDdgDoc : XNode := (v3DgDoc dNoDateTree).get (by decide)

/-! Concrete instances for witnesses and counterexamples. -/

def dEntryA : PNEntry :=
  { id := "id-a", invoice_number := "1", invoice_date := "2024-01-10"
  , partner_name := "ROSSI", total_amount := 100, has_ritenuta := true
  , importo_ritenuta := 20, added_at := "t1" }

def dEntryB : PNEntry :=
  { id := "id-b", invoice_number := "2", invoice_date := "2024-02-11"
  , partner_name := "BIANCHI", total_amount := 50, has_ritenuta := false
  , importo_ritenuta := 0, added_at := "t2" }

def dC : String := "VIZZI_GIUSEPPE"
def dY : String := "2024"
def dD : String := "EMESSE"
def dEs : List (PNEntry × String) := [(dEntryA, "n1"), (dEntryB, "n2")]
def dEs2 : List (PNEntry × String) := [(dEntryB, "m1"), (dEntryA, "m2")]

def dPn : PrimaNota := (runLedger dC dY dD dEs).getD (initPrimaNota dC dY dD)
def dPn2 : PrimaNota := (runLedger dC dY dD dEs2).getD (initPrimaNota dC dY dD)

def dNotifLower : String := "a_ns_1.xml"
def dNotifUpper : String := "a_NS_1.xml"
def dMetaLower : String := "x_mt_y.xml"
def dMetaUpper : String := "x_MT_y.xml"
def dExtUpper : String := "inv1.XML"
def dExtLower : String := "inv1.xml"
def dMetaMixed : String := "IT_MetaDato_7.bin"
def dMetaName2 : String := "y_MT_.p7m"
def dNotifName2 : String := "z_RC_9.txt"

def dOld : String := "X"
def dPn7 : PrimaNota := update_prima_nota none dC dY dD dEntryA "t3"

def sDIRECT : String := "DIRECT"
def dP7mName : String := "a.p7m"
def dXmlName : String := "b.xml"
def dTxtName : String := "c.txt"
def dXmlContent : String := "<?xml version=\"1.0\"?><FatturaElettronica/>"
def dPlainText : String := "hello"
def dAsn1Fail : PyRes (Option String) := PyRes.exc "DER decode error"
def dWinFail : PyRes (Option String) := PyRes.ok none
def dSslFail : PyRes (Option String) := PyRes.exc "openssl failed"
def dWinContent : String := "<?xml via windows"
def dWinOk : PyRes (Option String) := PyRes.ok (some dWinContent)

def dSilentAsn1 : Asn1Oracle := ⟨true, PyRes.ok (), PyRes.ok "garbage", PyRes.ok none⟩
def dSilentWin : WinOracle := ⟨false, PyRes.ok "", PyRes.ok ""⟩
def dSilentSsl : List CmdRes := List.replicate 6 (CmdRes.done 1 "" "")
def dErrAsn1 : Asn1Oracle := ⟨true, PyRes.exc "bad der", PyRes.ok "", PyRes.ok none⟩
def dErrSsl : List CmdRes := CmdRes.tout :: List.replicate 5 (CmdRes.done 1 "" "")

def dMd5Id : String → String := fun s => s
def dSha64 : String → String := fun s => s ++ String.mk (List.replicate 64 'x')
def dShaConst : String → String := fun _ => String.mk (List.replicate 64 'a')
def dXmlA : String := " <a>b</a>"
def dXmlB : String := "<a> b </a>"
def dRawA : String := "rawbytes-1"
def dRawB : String := "rawbytes-2"
def dReg1 : Reg8In := ⟨"f1", "m1", "h1", dXmlA, "t1"⟩
def dReg2 : Reg8In := ⟨"f2", "m2", "h2", dXmlB, "t2"⟩

def dOc : V3Oracles := ⟨dAsn1Fail, dWinFail, dSslFail, fun _ => some dTree, dMd5Id, dSha64, "tok", "uuid", "now"⟩
def dSt0 : V3State := ⟨[], [], []⟩

/-! # Theorems -/

theorem emptyAppend : ∀ s : String, String.mk [] ++ s = s
  | ⟨_⟩ => rfl

/-! ## C2: ledger totals always recomputed from the full entry list -/

theorem update_consistent (ex : Option PrimaNota) (c y d : String) (e : PNEntry) (now : String) :
    (update_prima_nota ex c y d e now).summary.total_invoices
        = (update_prima_nota ex c y d e now).invoices.length ∧
    (update_prima_nota ex c y d e now).summary.total_amount
        = ((update_prima_nota ex c y d e now).invoices.map PNEntry.total_amount).sum ∧
    (update_prima_nota ex c y d e now).summary.total_ritenute
        = (((update_prima_nota ex c y d e now).invoices.filter PNEntry.has_ritenuta).map PNEntry.importo_ritenuta).sum ∧
    (update_prima_nota ex c y d e now).summary.fatture_con_ritenuta
        = ((update_prima_nota ex c y d e now).invoices.filter PNEntry.has_ritenuta).length := by
  cases ex <;> exact ⟨rfl, rfl, rfl, rfl⟩

theorem invsOf_ledgerStep (c y d : String) (acc : Option PrimaNota) (e : PNEntry × String) :
    invsOf (ledgerStep c y d acc e) = invsOf acc ++ [e.1] := by
  cases acc <;> rfl

theorem invsOf_foldl (c y d : String) (es : List (PNEntry × String)) :
    ∀ acc, invsOf (es.foldl (ledgerStep c y d) acc) = invsOf acc ++ es.map Prod.fst := by
  induction es with
  | nil => intro acc; simp
  | cons e es ih =>
    intro acc
    simp only [List.foldl_cons, List.map_cons]
    rw [ih, invsOf_ledgerStep]
    simp

theorem foldl_ledger_some (c y d : String) (es : List (PNEntry × String)) :
    ∀ acc pn, es.foldl (ledgerStep c y d) acc = some pn →
      acc = some pn ∨ ∃ ex e now, pn = update_prima_nota ex c y d e now := by
  induction es with
  | nil => intro acc pn h; exact Or.inl h
  | cons e es ih =>
    intro acc pn h
    rcases ih _ _ h with h1 | h2
    · right
      exact ⟨acc, e.1, e.2, (Option.some.inj h1).symm⟩
    · exact Or.inr h2

theorem runLedger_consistent (c y d : String) (es : List (PNEntry × String)) (pn : PrimaNota)
    (h : runLedger c y d es = some pn) :
    pn.summary.total_invoices = pn.invoices.length ∧
    pn.summary.total_amount = (pn.invoices.map PNEntry.total_amount).sum ∧
    pn.summary.total_ritenute = ((pn.invoices.filter PNEntry.has_ritenuta).map PNEntry.importo_ritenuta).sum ∧
    pn.summary.fatture_con_ritenuta = (pn.invoices.filter PNEntry.has_ritenuta).length := by
  rcases foldl_ledger_some c y d es none pn h with h1 | ⟨ex, e, now, rfl⟩
  · cases h1
  · exact update_consistent ex c y d e now

theorem runLedger_invoices (c y d : String) (es : List (PNEntry × String)) (pn : PrimaNota)
    (h : runLedger c y d es = some pn) : pn.invoices = es.map Prod.fst := by
  have h2 := invsOf_foldl c y d es none
  unfold runLedger at h
  rw [h] at h2
  simpa [invsOf] using h2

/-- C2: after any sequence of ledger updates for one {client, direction,
year} key, the summary totals (count, amount, withholding sum, withholding
count) equal the same quantities recomputed over the full current entry
list, and any permutation of the appended invoices yields the same
totals. -/
theorem c2_theorem (c y d : String) (es : List (PNEntry × String)) (pn : PrimaNota)
    (h : runLedger c y d es = some pn) :
    (pn.summary.total_invoices = pn.invoices.length ∧
     pn.summary.total_amount = (pn.invoices.map PNEntry.total_amount).sum ∧
     pn.summary.total_ritenute = ((pn.invoices.filter PNEntry.has_ritenuta).map PNEntry.importo_ritenuta).sum ∧
     pn.summary.fatture_con_ritenuta = (pn.invoices.filter PNEntry.has_ritenuta).length) ∧
    pn.invoices = es.map Prod.fst ∧
    ∀ es₂ pn₂, runLedger c y d es₂ = some pn₂ → (es.map Prod.fst).Perm (es₂.map Prod.fst) →
      pn.summary.total_invoices = pn₂.summary.total_invoices ∧
      pn.summary.total_amount = pn₂.summary.total_amount ∧
      pn.summary.total_ritenute = pn₂.summary.total_ritenute ∧
      pn.summary.fatture_con_ritenuta = pn₂.summary.fatture_con_ritenuta := by
  obtain ⟨h1, h2, h3, h4⟩ := runLedger_consistent c y d es pn h
  have hinv := runLedger_invoices c y d es pn h
  refine ⟨⟨h1, h2, h3, h4⟩, hinv, ?_⟩
  intro es₂ pn₂ h' hperm
  obtain ⟨g1, g2, g3, g4⟩ := runLedger_consistent c y d es₂ pn₂ h'
  have hinv2 := runLedger_invoices c y d es₂ pn₂ h'
  have hp : pn.invoices.Perm pn₂.invoices := by rw [hinv, hinv2]; exact hperm
  have hpf : (pn.invoices.filter PNEntry.has_ritenuta).Perm (pn₂.invoices.filter PNEntry.has_ritenuta) :=
    hp.filter PNEntry.has_ritenuta
  refine ⟨?_, ?_, ?_, ?_⟩
  · rw [h1, g1, hp.length_eq]
  · rw [h2, g2, (hp.map PNEntry.total_amount).sum_eq]
  · rw [h3, g3, (hpf.map PNEntry.importo_ritenuta).sum_eq]
  · rw [h4, g4, hpf.length_eq]

/-- C2 witness: a concrete two-invoice run and its permutation. -/
theorem c2_witness :
    dPn.summary.total_amount = (dPn.invoices.map PNEntry.total_amount).sum ∧
    dPn.summary.total_invoices = dPn2.summary.total_invoices ∧
    dPn.summary.total_ritenute = dPn2.summary.total_ritenute := by
  have h := c2_theorem dC dY dD dEs dPn (by rfl)
  have h2 := h.2.2 dEs2 dPn2 (by rfl) (by decide)
  exact ⟨h.1.2.1, h2.1, h2.2.2.1⟩

/-! ## C4: classifier priority order and case sensitivity -/

/-- C4 counterexample: the notification marker `_NS_` and the metadata
marker `_MT_` only match uppercase, so the lowercase variants of the same
filename classify as Invoice instead. -/
theorem c4_counterexample :
    determine_file_type dNotifLower = sINVOICE ∧
    determine_file_type dNotifUpper = sNOTIFICATION ∧
    lowerStr dNotifUpper = dNotifLower ∧
    determine_file_type dMetaLower = sINVOICE ∧
    determine_file_type dMetaUpper = sMETADATA ∧
    lowerStr dMetaUpper = dMetaLower := by
  exact ⟨rfl, rfl, rfl, rfl, rfl, rfl⟩

/-- C4 amended: classification evaluates in strict priority order
(metadata, notification, supported extension, unsupported); the
`metadato` keyword matches case-insensitively and the extension check is
case-insensitive, while the `_MT_` and notification markers are
uppercase-only (see the counterexample). -/
theorem c4_theorem :
    (∀ name, (is_metadata name = true → determine_file_type name = sMETADATA) ∧
      (is_metadata name = false → is_notification name = true →
        determine_file_type name = sNOTIFICATION) ∧
      (is_metadata name = false → is_notification name = false → is_supported_file name = true →
        determine_file_type name = sINVOICE) ∧
      (is_metadata name = false → is_notification name = false → is_supported_file name = false →
        determine_file_type name = sUNSUPPORTED)) ∧
    (∀ name, subB sMetadato.data (name.data.map Char.toLower) = true →
      determine_file_type name = sMETADATA) ∧
    (determine_file_type dExtUpper = sINVOICE ∧ determine_file_type dExtLower = sINVOICE ∧
      determine_file_type dMetaMixed = sMETADATA) := by
  refine ⟨?_, ?_, rfl, rfl, rfl⟩
  · intro name
    refine ⟨?_, ?_, ?_, ?_⟩
    · intro h1; simp [determine_file_type, h1]
    · intro h1 h2; simp [determine_file_type, h1, h2]
    · intro h1 h2 h3; simp [determine_file_type, h1, h2, h3]
    · intro h1 h2 h3; simp [determine_file_type, h1, h2, h3]
  · intro name h
    have h1 : is_metadata name = true := by
      simp [is_metadata, h]
    simp [determine_file_type, h1]

/-- C4 witness for the amended statement. -/
theorem c4_witness :
    determine_file_type dMetaName2 = sMETADATA ∧
    determine_file_type dNotifName2 = sNOTIFICATION := by
  have h := c4_theorem
  exact ⟨(h.1 dMetaName2).1 (by decide), (h.1 dNotifName2).2.1 (by decide) (by decide)⟩

/-! ## C7: the ledger write is not an atomic replacement -/

/-- C7 counterexample: interrupting the rewrite between the truncation and
the completed dump leaves the ledger file empty, which is neither the old
nor the new complete state. -/
theorem c7_counterexample :
    String.mk [] ∈ crashStates dOld (ledgerWriteOps dPn7) ∧
    String.mk [] ≠ dOld ∧ String.mk [] ≠ renderPN dPn7 := by
  decide

/-- C7 amended: `update_prima_nota` rewrites the ledger file in place by
truncating and then writing: the reachable interruption states are
exactly the old content, the empty file, and the new content — and the
new content is never the empty string, so the intermediate state matches
neither complete state. -/
theorem c7_theorem :
    (∀ old pn, crashStates old (ledgerWriteOps pn) = [old, String.mk [], renderPN pn]) ∧
    (∀ pn, renderPN pn ≠ String.mk []) := by
  constructor
  · intro old pn
    simp only [crashStates, ledgerWriteOps]
    norm_num [List.range_succ]
    exact ⟨rfl, emptyAppend (renderPN pn)⟩
  · intro pn h
    have h2 := congrArg String.data h
    simp only [renderPN, sLBrace] at h2
    simp [String.data_append] at h2

/-! ## C5: decode dispatch and strategy fallback -/

theorem stratHit_marker : ∀ (r : PyRes (Option String)) (x : String),
    stratHit r = some x → containsSub x sXmlMarker = true := by
  intro r x h
  cases r with
  | ok o =>
    cases o with
    | some s =>
      simp only [stratHit] at h
      split at h
      · next hcond =>
        cases h
        simp only [Bool.and_eq_true] at hcond
        exact hcond.2
      · cases h
    | none => simp [stratHit] at h
  | exc m => simp [stratHit] at h

/-- C5 counterexample: the pass-through is decided by the filename
extension, not by the content prologue, and its recorded strategy name is
`DIRECT_XML`, not `DIRECT`: a `.p7m`-named file whose content starts with
the prologue is not passed through, while a non-`.p7m` file is passed
through under the name `DIRECT_XML`. -/
theorem c5_counterexample :
    prefB sXmlMarker.data dXmlContent.data = true ∧
    V3.decodeStage dP7mName dXmlContent dAsn1Fail dWinFail dSslFail = (none, sFAILED) ∧
    V3.decodeStage dXmlName dPlainText dAsn1Fail dWinFail dSslFail = (some dPlainText, sDIRECT_XML) ∧
    sDIRECT_XML ≠ sDIRECT ∧ sFAILED ≠ sDIRECT := by
  decide

/-- C5 amended: a file whose lowercased extension is not `.p7m` is passed
through unchanged with strategy name `DIRECT_XML`; a `.p7m` file goes to
the fixed ordered strategy list (ASN1, Windows API, OpenSSL), each tried
at most once, the first result containing the `<?xml` marker winning with
its strategy name, and `FAILED` otherwise; every winning payload contains
the marker. -/
theorem c5_theorem :
    (∀ name text a w s, lowerStr (pathSuffix name) ≠ sP7mExt →
       V3.decodeStage name text a w s = (some text, sDIRECT_XML)) ∧
    (∀ name text a w s, lowerStr (pathSuffix name) = sP7mExt →
       V3.decodeStage name text a w s = V3.extract_xml_from_p7m a w s) ∧
    (∀ a w s,
      (∀ x, stratHit a = some x → V3.extract_xml_from_p7m a w s = (some x, sPythonASN1)) ∧
      (∀ x, stratHit a = none → stratHit w = some x →
        V3.extract_xml_from_p7m a w s = (some x, sWindowsAPI)) ∧
      (∀ x, stratHit a = none → stratHit w = none → stratHit s = some x →
        V3.extract_xml_from_p7m a w s = (some x, sOpenSSL)) ∧
      (stratHit a = none → stratHit w = none → stratHit s = none →
        V3.extract_xml_from_p7m a w s = (none, sFAILED))) ∧
    (∀ a w s x n, V3.extract_xml_from_p7m a w s = (some x, n) →
      containsSub x sXmlMarker = true ∧ (n = sPythonASN1 ∨ n = sWindowsAPI ∨ n = sOpenSSL)) := by
  refine ⟨?_, ?_, ?_, ?_⟩
  · intro name text a w s h
    simp [V3.decodeStage, h]
  · intro name text a w s h
    simp [V3.decodeStage, h]
  · intro a w s
    refine ⟨?_, ?_, ?_, ?_⟩
    · intro x h1; simp [V3.extract_xml_from_p7m, h1]
    · intro x h1 h2; simp [V3.extract_xml_from_p7m, h1, h2]
    · intro x h1 h2 h3; simp [V3.extract_xml_from_p7m, h1, h2, h3]
    · intro h1 h2 h3; simp [V3.extract_xml_from_p7m, h1, h2, h3]
  · intro a w s x n h
    unfold V3.extract_xml_from_p7m at h
    split at h
    · next v hv =>
      injection h with h1 h2
      injection h1 with h1
      subst h1
      subst h2
      exact ⟨stratHit_marker a _ hv, Or.inl rfl⟩
    · next hv =>
      split at h
      · next v hw =>
        injection h with h1 h2
        injection h1 with h1
        subst h1
        subst h2
        exact ⟨stratHit_marker w _ hw, Or.inr (Or.inl rfl)⟩
      · next hw =>
        split at h
        · next v hs =>
          injection h with h1 h2
          injection h1 with h1
          subst h1
          subst h2
          exact ⟨stratHit_marker s _ hs, Or.inr (Or.inr rfl)⟩
        · next hs =>
          injection h with h1 h2
          exact Option.noConfusion h1

/-- C5 witness for the amended statement. -/
theorem c5_witness :
    V3.decodeStage dTxtName dPlainText dAsn1Fail dWinFail dSslFail = (some dPlainText, sDIRECT_XML) ∧
    V3.extract_xml_from_p7m dAsn1Fail dWinOk dSslFail = (some dWinContent, sWindowsAPI) := by
  have h := c5_theorem
  exact ⟨h.1 dTxtName dPlainText dAsn1Fail dWinFail dSslFail (by decide),
         (h.2.2.1 dAsn1Fail dWinOk dSslFail).2.1 dWinContent (by decide) (by decide)⟩

/-! ## C6: attempt list on decode failure -/

/-- C6 counterexample: the advanced decoder can exhaust every strategy and
fail with an EMPTY attempt list — the asn1 content checks and nonzero
OpenSSL exits record no message. -/
theorem c6_counterexample :
    decrypt_p7m_file false dP7mName (PyRes.ok ()) dSilentAsn1 dSilentWin dSilentSsl
      = (none, ([] : List String), sFAILED) := by
  decide

/-- C6 amended: when every strategy fails, `decrypt_p7m_file` returns the
concatenation, in strategy order, of exactly the messages each attempted
strategy recorded (Windows only on Windows) — but a strategy may record
none, so the list can be empty. -/
theorem c6_theorem :
    (∀ name ao wo so e1 e3, endsWithStr (lowerStr name) sP7mExt = true →
      extract_xml_from_p7m_asn1 ao = (none, e1) →
      extract_xml_from_p7m_openssl so = (none, e3) →
      decrypt_p7m_file false name (PyRes.ok ()) ao wo so = (none, e1 ++ e3, sFAILED)) ∧
    (∀ name ao wo so e1 e2 e3, endsWithStr (lowerStr name) sP7mExt = true →
      extract_xml_from_p7m_asn1 ao = (none, e1) →
      extract_xml_from_p7m_windows wo = (none, e2) →
      extract_xml_from_p7m_openssl so = (none, e3) →
      decrypt_p7m_file true name (PyRes.ok ()) ao wo so = (none, (e1 ++ e2) ++ e3, sFAILED)) := by
  constructor
  · intro name ao wo so e1 e3 hn h1 h3
    simp [decrypt_p7m_file, hn, h1, sslTail, h3]
  · intro name ao wo so e1 e2 e3 hn h1 h2 h3
    simp [decrypt_p7m_file, hn, h1, h2, sslTail, h3]

/-- C6 witness for the amended statement: a failing run whose asn1 load
raised and whose first OpenSSL command timed out retains both messages in
order. -/
theorem c6_witness :
    decrypt_p7m_file false dP7mName (PyRes.ok ()) dErrAsn1 dSilentWin dErrSsl
      = (none, [sAsn1Gen ++ "bad der"] ++ [sSslCmd ++ toString 1 ++ sSslTimeout], sFAILED) := by
  have h := c6_theorem
  exact h.1 dP7mName dErrAsn1 dSilentWin dErrSsl [sAsn1Gen ++ "bad der"]
    [sSslCmd ++ toString 1 ++ sSslTimeout] (by decide) (by decide) (by decide)

/-! ## C10: unreadable files hash to a fresh error token -/

theorem strDataEq (s t : String) (h : s.data = t.data) : s = t := by
  cases s; cases t; exact congrArg String.mk h

theorem strKeyInj (a b m c : String) (h : a ++ m ++ c = b ++ m ++ c) : a = b := by
  have hd := congrArg String.data h
  simp only [String.data_append] at hd
  exact strDataEq a b (List.append_cancel_right (List.append_cancel_right hd))

theorem strPreInj (p a b : String) (h : p ++ a = p ++ b) : a = b := by
  have hd := congrArg String.data h
  simp only [String.data_append] at hd
  exact strDataEq a b (List.append_cancel_left hd)

theorem keysContains_false {α : Type} (db : List (String × α)) (key : String)
    (h : ∀ p ∈ db, p.1 ≠ key) : (db.map Prod.fst).contains key = false := by
  rw [Bool.eq_false_iff]
  intro hc
  have hm : key ∈ db.map Prod.fst := by simpa using hc
  obtain ⟨p, hp, he⟩ := List.mem_map.mp hm
  exact h p hp he

theorem keysContains_mem {α : Type} (db : List (String × α)) (key : String)
    (h : (db.map Prod.fst).contains key = true) : ∃ p ∈ db, p.1 = key := by
  have hm : key ∈ db.map Prod.fst := by simpa using h
  obtain ⟨p, hp, he⟩ := List.mem_map.mp hm
  exact ⟨p, hp, he⟩

/-- C10: when the file read fails, the whole-file hash is `error_` plus
the fresh token, so as long as the resulting key collides with no stored
key, registration reports not-duplicate — and a second registration of
the SAME content with a distinct fresh token is again not-duplicate, so
identical content can be archived twice. -/
theorem c10_theorem (md5 sha : String → String) (tok f xml now : String)
    (db : List (String × V3Reg))
    (hfresh : ∀ p ∈ db, p.1 ≠ (sErrorPre ++ tok) ++ sUnderscore ++ calculate_content_hash sha xml) :
    calculate_hash md5 none tok = sErrorPre ++ tok ∧
    (V3.is_duplicate md5 sha none tok f xml now db).1.1 = false ∧
    ∀ tok2 f2 now2, tok2 ≠ tok →
      (∀ p ∈ db, p.1 ≠ (sErrorPre ++ tok2) ++ sUnderscore ++ calculate_content_hash sha xml) →
      (V3.is_duplicate md5 sha none tok2 f2 xml now2
        (V3.is_duplicate md5 sha none tok f xml now db).2).1.1 = false := by
  have hc1 := keysContains_false db _ hfresh
  refine ⟨rfl, ?_, ?_⟩
  · simp only [V3.is_duplicate, calculate_hash]
    rw [hc1]
    simp
  · intro tok2 f2 now2 hne hfresh2
    have hstep : V3.is_duplicate md5 sha none tok f xml now db
        = ((false, (sErrorPre ++ tok) ++ sUnderscore ++ calculate_content_hash sha xml),
           db ++ [((sErrorPre ++ tok) ++ sUnderscore ++ calculate_content_hash sha xml,
                   { file := f, processed_at := now })]) := by
      simp only [V3.is_duplicate, calculate_hash]
      rw [hc1]
      simp
    rw [hstep]
    have hfresh' : ∀ p ∈ db ++ [((sErrorPre ++ tok) ++ sUnderscore ++ calculate_content_hash sha xml,
        (⟨f, now⟩ : V3Reg))],
        p.1 ≠ (sErrorPre ++ tok2) ++ sUnderscore ++ calculate_content_hash sha xml := by
      intro p hp
      rcases List.mem_append.mp hp with hmem | hmem
      · exact hfresh2 p hmem
      · rcases List.mem_singleton.mp hmem with rfl
        intro he
        exact hne (strPreInj sErrorPre tok tok2 (strKeyInj _ _ _ _ he)).symm
    have hc2 := keysContains_false _ _ hfresh'
    simp only [V3.is_duplicate, calculate_hash]
    rw [hc2]
    simp

/-- C10 witness. -/
theorem c10_witness :
    (V3.is_duplicate dMd5Id dSha64 none "tokA" "f1" dXmlA "n1" []).1.1 = false ∧
    (V3.is_duplicate dMd5Id dSha64 none "tokB" "f2" dXmlA "n2"
      (V3.is_duplicate dMd5Id dSha64 none "tokA" "f1" dXmlA "n1" []).2).1.1 = false := by
  have h := c10_theorem dMd5Id dSha64 "tokA" "f1" dXmlA "n1" [] (by intro p hp; cases hp)
  exact ⟨h.2.1, h.2.2 "tokB" "f2" "n2" (by decide) (by intro p hp; cases hp)⟩

/-! ## C1: deduplication by normalised content -/

theorem chLen (sha : String → String) (h64 : ∀ s, (sha s).data.length = 64) (x : String) :
    (calculate_content_hash sha x).data.length = 16 := by
  have h := h64 (stripWs x)
  simp [calculate_content_hash, List.length_take, h]

theorem keySuffixEq (f1 f2 c1 c2 : String) (h : f1 ++ sUnderscore ++ c1 = f2 ++ sUnderscore ++ c2)
    (h1 : c1.data.length = 16) (h2 : c2.data.length = 16) : c1 = c2 := by
  have hd := congrArg String.data h
  simp only [String.data_append] at hd
  exact strDataEq _ _ (List.append_inj' hd (by rw [h1, h2])).2

theorem isDup8_true_of_mem (sha : String → String) (r : Reg8In) (db : DupDB8)
    (h : calculate_content_hash sha r.xml ∈ db.content_hashes) :
    (V8.is_duplicate sha r db).1.1 = true := by
  have hb : db.content_hashes.contains (calculate_content_hash sha r.xml) = true :=
    List.elem_eq_true_of_mem h
  simp only [V8.is_duplicate]
  by_cases hc : ((db.processed_files.map Prod.fst).contains
      (r.sha256h ++ sUnderscore ++ calculate_content_hash sha r.xml)) = true
  · rw [if_pos hc]
  · rw [if_neg hc, if_pos hb]

theorem regStep_hash_mono (sha : String → String) (db : DupDB8) (r : Reg8In) (x : String)
    (h : x ∈ db.content_hashes) : x ∈ (V8.regStep sha db r).content_hashes := by
  simp only [V8.regStep, V8.is_duplicate]
  by_cases hc1 : ((db.processed_files.map Prod.fst).contains
      (r.sha256h ++ sUnderscore ++ calculate_content_hash sha r.xml)) = true
  · rw [if_pos hc1]; exact h
  · rw [if_neg hc1]
    by_cases hc2 : (db.content_hashes.contains (calculate_content_hash sha r.xml)) = true
    · rw [if_pos hc2]; exact h
    · rw [if_neg hc2]; exact List.mem_append_left _ h

theorem regStep_inv (sha : String → String) (h64 : ∀ s, (sha s).data.length = 64)
    (db : DupDB8) (r : Reg8In) (hinv : DBInv db) : DBInv (V8.regStep sha db r) := by
  simp only [V8.regStep, V8.is_duplicate]
  by_cases hc1 : ((db.processed_files.map Prod.fst).contains
      (r.sha256h ++ sUnderscore ++ calculate_content_hash sha r.xml)) = true
  · rw [if_pos hc1]; exact hinv
  · rw [if_neg hc1]
    by_cases hc2 : (db.content_hashes.contains (calculate_content_hash sha r.xml)) = true
    · rw [if_pos hc2]; exact hinv
    · rw [if_neg hc2]
      intro p hp
      rcases List.mem_append.mp hp with hmem | hmem
      · obtain ⟨f, c, hk, hc, hl⟩ := hinv p hmem
        exact ⟨f, c, hk, List.mem_append_left _ hc, hl⟩
      · rcases List.mem_singleton.mp hmem with rfl
        exact ⟨r.sha256h, calculate_content_hash sha r.xml, rfl,
          List.mem_append_right _ (List.mem_singleton.mpr rfl), chLen sha h64 r.xml⟩

theorem regStep_adds_hash (sha : String → String) (h64 : ∀ s, (sha s).data.length = 64)
    (db : DupDB8) (r : Reg8In) (hinv : DBInv db) :
    calculate_content_hash sha r.xml ∈ (V8.regStep sha db r).content_hashes := by
  simp only [V8.regStep, V8.is_duplicate]
  by_cases hc1 : ((db.processed_files.map Prod.fst).contains
      (r.sha256h ++ sUnderscore ++ calculate_content_hash sha r.xml)) = true
  · rw [if_pos hc1]
    obtain ⟨p, hp, hk⟩ := keysContains_mem _ _ hc1
    obtain ⟨f, c, hk2, hcmem, hl⟩ := hinv p hp
    have he : c = calculate_content_hash sha r.xml :=
      keySuffixEq f r.sha256h c _ (hk2.symm.trans hk) hl (chLen sha h64 r.xml)
    exact he ▸ hcmem
  · rw [if_neg hc1]
    by_cases hc2 : (db.content_hashes.contains (calculate_content_hash sha r.xml)) = true
    · rw [if_pos hc2]
      simpa using hc2
    · rw [if_neg hc2]
      exact List.mem_append_right _ (List.mem_singleton.mpr rfl)

theorem foldl_hash_mono (sha : String → String) (rs : List Reg8In) :
    ∀ db x, x ∈ db.content_hashes → x ∈ (rs.foldl (V8.regStep sha) db).content_hashes := by
  induction rs with
  | nil => intro db x h; exact h
  | cons r rs ih => intro db x h; exact ih _ _ (regStep_hash_mono sha db r x h)

theorem foldl_inv (sha : String → String) (h64 : ∀ s, (sha s).data.length = 64)
    (rs : List Reg8In) : ∀ db, DBInv db → DBInv (rs.foldl (V8.regStep sha) db) := by
  induction rs with
  | nil => intro db h; exact h
  | cons r rs ih => intro db h; exact ih _ (regStep_inv sha h64 db r h)

theorem emptyInv : DBInv emptyDupDB8 := by
  intro p hp
  simp [emptyDupDB8] at hp

/-- C1 counterexample: in `processor_v3.is_duplicate` the key couples the
whole-file hash, so two documents with identical whitespace-normalised
content but different raw bytes are both reported not-duplicate. -/
theorem c1_counterexample :
    stripWs dXmlA = stripWs dXmlB ∧ dXmlA ≠ dXmlB ∧ dRawA ≠ dRawB ∧
    (V3.is_duplicate dMd5Id dSha64 (some dRawA) "t" "f1" dXmlA "n1" []).1.1 = false ∧
    (V3.is_duplicate dMd5Id dSha64 (some dRawB) "t" "f2" dXmlB "n2"
      (V3.is_duplicate dMd5Id dSha64 (some dRawA) "t" "f1" dXmlA "n1" []).2).1.1 = false := by
  decide

/-- C1 amended: in `AdvancedDuplicateManager` (v8), for any run from the
empty state and any earlier registration with the same
whitespace-normalised content, a later registration reports duplicate
even when the raw bytes and whole-file hashes differ (the digest oracle
returns 64-character hexdigests, as `hashlib.sha256` does). -/
theorem c1_theorem (sha : String → String) (h64 : ∀ s, (sha s).data.length = 64)
    (pre mid : List Reg8In) (r1 r2 : Reg8In)
    (hx : stripWs r1.xml = stripWs r2.xml) :
    (V8.is_duplicate sha r2 (V8.runDB sha (pre ++ r1 :: mid))).1.1 = true := by
  have hinvPre : DBInv (pre.foldl (V8.regStep sha) emptyDupDB8) :=
    foldl_inv sha h64 pre emptyDupDB8 emptyInv
  have h1 : calculate_content_hash sha r1.xml
      ∈ (V8.regStep sha (pre.foldl (V8.regStep sha) emptyDupDB8) r1).content_hashes :=
    regStep_adds_hash sha h64 _ r1 hinvPre
  have hch : calculate_content_hash sha r1.xml = calculate_content_hash sha r2.xml := by
    unfold calculate_content_hash
    rw [hx]
  have h2 : calculate_content_hash sha r2.xml
      ∈ (V8.runDB sha (pre ++ r1 :: mid)).content_hashes := by
    unfold V8.runDB
    rw [List.foldl_append, List.foldl_cons]
    exact hch ▸ foldl_hash_mono sha mid _ _ h1
  exact isDup8_true_of_mem sha r2 _ h2

/-- C1 witness for the amended statement. -/
theorem c1_witness :
    (V8.is_duplicate dShaConst dReg2 (V8.runDB dShaConst ([] ++ dReg1 :: []))).1.1 = true := by
  exact c1_theorem dShaConst (fun s => by simp [dShaConst]) [] [] dReg1 dReg2 (by decide)

/-! ## Parse inversion lemmas -/

theorem parse3_inversion (pf : List (String × String)) (today : PyDate) (root0 : XNode)
    (out : ParseOut) (h : V3.parse_invoice_completo pf today root0 = some out) :
    ∃ header body dg cedente cden cessionario cesden dirRes invDate dgDoc imp tot company,
      childNamed (stripNs root0) sFEHeader = some header ∧
      childNamed (stripNs root0) sFEBody = some body ∧
      childNamed body sDatiGenerali = some dg ∧
      childNamed header sCedente = some cedente ∧
      V3.get_denominazione_or_nome_cognome (findRel cedente [sDatiAnagrafici, sAnagrafica]) = some cden ∧
      childNamed header sCessionario = some cessionario ∧
      V3.get_denominazione_or_nome_cognome (findRel cessionario [sDatiAnagrafici, sAnagrafica]) = some cesden ∧
      (if (pf.lookup (senderVat (stripNs root0))).isSome then
         some (senderVat (stripNs root0), sEMESSE)
       else if (pf.lookup (receiverVat (stripNs root0))).isSome then
         some (receiverVat (stripNs root0), sRICEVUTE)
       else none) = some dirRes ∧
      (match getTextDD (stripNs root0) [sDGDoc, sDataTag] with
       | some t => if t != String.mk [] then parseDateYMD t else some today
       | none => some today) = some invDate ∧
      childNamed dg sDGDoc = some dgDoc ∧
      (if (childNamed dgDoc sDatiRitenuta).isSome then
         getFloatV3 (stripNs root0) [sDatiRitenuta, sImportoRitenuta] else some 0) = some imp ∧
      getFloatV3 (stripNs root0) [sImportoTot] = some tot ∧
      pf.lookup dirRes.1 = some company ∧
      out = (fatturaOf (stripNs root0) invDate tot cden cesden dgDoc imp company dirRes
            , dirRes.1, dirRes.2, getTextDD (stripNs root0) [sDGDoc, sTipoDocumento]
            , toString invDate.y) := by
  unfold V3.parse_invoice_completo at h
  simp only [Option.bind_eq_some, Option.some.injEq] at h
  obtain ⟨header, hH, body, hB, dg, hDg, cedente, hCed, cden, hCden, cessionario, hCes,
    cesden, hCesden, dirRes, hDir, invDate, hDate, dgDoc, hDgDoc, imp, hImp, tot, hTot,
    company, hComp, hOut⟩ := h
  exact ⟨header, body, dg, cedente, cden, cessionario, cesden, dirRes, invDate, dgDoc,
    imp, tot, company, hH, hB, hDg, hCed, hCden, hCes, hCesden, hDir, hDate, hDgDoc,
    hImp, hTot, hComp, hOut.symm⟩

theorem parse8_inversion (today : PyDate) (root0 : XNode) (out : Inv8)
    (h : V8.parse_invoice_xml_advanced today root0 = some out) :
    ∃ header cedente cessionario body dati dgDoc,
      childNamed (stripNs root0) sFEHeader = some header ∧
      childNamed header sCedente = some cedente ∧
      childNamed header sCessionario = some cessionario ∧
      childNamed (stripNs root0) sFEBody = some body ∧
      childNamed body sDatiGenerali = some dati ∧
      childNamed dati sDGDoc = some dgDoc ∧
      out = inv8Of today (stripNs root0) cedente cessionario dgDoc := by
  simp only [V8.parse_invoice_xml_advanced] at h
  split at h
  · exact Option.noConfusion h
  · simp only [Option.bind_eq_some] at h
    obtain ⟨header, hH, h⟩ := h
    split at h
    · exact Option.noConfusion h
    · simp only [Option.bind_eq_some, Option.some.injEq] at h
      obtain ⟨cedente, hCed, cessionario, hCes, body, hB, dati, hDa, dgDoc, hDg, hOut⟩ := h
      exact ⟨header, cedente, cessionario, body, dati, dgDoc, hH, hCed, hCes, hB, hDa,
        hDg, hOut.symm⟩

theorem dOut_spec : V3.parse_invoice_completo dPf dToday dTree = some dOut := by
  unfold dOut
  exact (Option.some_get _).symm

theorem dOutND_spec : V3.parse_invoice_completo dPf dToday dNoDateTree = some dOutND := by
  unfold dOutND
  exact (Option.some_get _).symm

theorem dOut8_spec : V8.parse_invoice_xml_advanced dToday dBadDateTree = some dOut8 := by
  unfold dOut8
  exact (Option.some_get _).symm

theorem dNDdgDoc_spec : v3DgDoc dNoDateTree = some dNDdgDoc := by
  unfold dNDdgDoc
  exact (Option.some_get _).symm

/-! ## C3: direction resolution against the portfolio -/

theorem decodeStage_direct (name text : String) (a w s : PyRes (Option String))
    (h : lowerStr (pathSuffix name) ≠ sP7mExt) :
    V3.decodeStage name text a w s = (some text, sDIRECT_XML) := by
  simp [V3.decodeStage, h]

/-- C3: when parsing succeeds, a supplier identity in the portfolio gives
direction EMESSE with the portfolio's client, else a customer match gives
RICEVUTE; when neither party matches, the parse yields no record and
`process_file` performs no write at all (its state is unchanged). -/
theorem c3_theorem (pf : List (String × String)) (today : PyDate) (root0 : XNode) :
    (∀ out, V3.parse_invoice_completo pf today root0 = some out →
      ((pf.lookup (senderVat (stripNs root0))).isSome = true →
        out.1.direction = sEMESSE ∧ out.2.2.1 = sEMESSE ∧
        out.2.1 = senderVat (stripNs root0) ∧
        pf.lookup (senderVat (stripNs root0)) = some out.1.company_name) ∧
      ((pf.lookup (senderVat (stripNs root0))).isSome = false →
        (pf.lookup (receiverVat (stripNs root0))).isSome = true →
        out.1.direction = sRICEVUTE ∧ out.2.2.1 = sRICEVUTE ∧
        out.2.1 = receiverVat (stripNs root0) ∧
        pf.lookup (receiverVat (stripNs root0)) = some out.1.company_name)) ∧
    ((pf.lookup (senderVat (stripNs root0))).isSome = false →
      (pf.lookup (receiverVat (stripNs root0))).isSome = false →
      V3.parse_invoice_completo pf today root0 = none ∧
      ∀ oc fname text raw st, lowerStr (pathSuffix fname) ≠ sP7mExt →
        oc.xmlTree text = some root0 →
        (V3.process_file pf today oc fname text raw st).2.2 = st ∧
        (V3.process_file pf today oc fname text raw st).1.status = sKO) := by
  constructor
  · intro out hp
    obtain ⟨header, body, dg, cedente, cden, cessionario, cesden, dirRes, invDate, dgDoc,
      imp, tot, company, hH, hB, hDg, hCed, hCden, hCes, hCesden, hDir, hDate, hDgDoc,
      hImp, hTot, hComp, hOut⟩ := parse3_inversion pf today root0 out hp
    constructor
    · intro hs
      rw [if_pos hs] at hDir
      cases Option.some.inj hDir
      subst hOut
      exact ⟨rfl, rfl, rfl, hComp⟩
    · intro hs hr
      rw [if_neg (by simp [hs]), if_pos hr] at hDir
      cases Option.some.inj hDir
      subst hOut
      exact ⟨rfl, rfl, rfl, hComp⟩
  · intro hs hr
    have hnone : V3.parse_invoice_completo pf today root0 = none := by
      cases hq : V3.parse_invoice_completo pf today root0 with
      | none => rfl
      | some out =>
        obtain ⟨header, body, dg, cedente, cden, cessionario, cesden, dirRes, invDate,
          dgDoc, imp, tot, company, hH, hB, hDg, hCed, hCden, hCes, hCesden, hDir,
          hDate, hDgDoc, hImp, hTot, hComp, hOut⟩ := parse3_inversion pf today root0 out hq
        rw [if_neg (by simp [hs]), if_neg (by simp [hr])] at hDir
        exact Option.noConfusion hDir
    refine ⟨hnone, ?_⟩
    intro oc fname text raw st hsuf ht
    have hd := decodeStage_direct fname text oc.asn1 oc.win oc.ssl hsuf
    constructor
    · simp only [V3.process_file, hd, ht, Option.some_bind, hnone]
    · simp only [V3.process_file, hd, ht, Option.some_bind, hnone]

/-- C3 witness: the demo invoice resolves to EMESSE for the configured
client, and with an empty portfolio nothing is parsed or written. -/
theorem c3_witness :
    dOut.1.direction = sEMESSE ∧
    dPf.lookup (senderVat (stripNs dTree)) = some dOut.1.company_name ∧
    V3.parse_invoice_completo [] dToday dTree = none ∧
    (V3.process_file [] dToday dOc dXmlName dPlainText (some dRawA) dSt0).2.2 = dSt0 := by
  have h1 := (c3_theorem dPf dToday dTree).1 dOut dOut_spec
  have h2 := (c3_theorem [] dToday dTree).2 (by decide) (by decide)
  exact ⟨(h1.1 (by decide)).1, (h1.1 (by decide)).2.2.2, h2.1,
    (h2.2 dOc dXmlName dPlainText (some dRawA) dSt0 (by decide) rfl).1⟩

/-! ## C8: derived year and the date fallback -/

/-- C8 counterexample: an in-portfolio invoice whose date text is
unparseable makes `parse_invoice_completo` fail outright instead of
defaulting the year, while `parse_invoice_xml_advanced` still parses it. -/
theorem c8_counterexample :
    (dPf.lookup (senderVat (stripNs dBadDateTree))).isSome = true ∧
    getTextDD (stripNs dBadDateTree) [sDGDoc, sDataTag] = some dBanana ∧
    parseDateYMD dBanana = none ∧
    V3.parse_invoice_completo dPf dToday dBadDateTree = none ∧
    (V8.parse_invoice_xml_advanced dToday dBadDateTree).isSome = true := by
  decide

/-- C8 amended: the derived year equals the year of the date parsed with
the fixed format, and a missing date defaults to the current year in both
parsers; a present but unparseable date, however, aborts
`parse_invoice_completo` (v3) while `parse_invoice_xml_advanced` (v8)
still parses and defaults the year. -/
theorem c8_theorem :
    (∀ pf today root0 out, V3.parse_invoice_completo pf today root0 = some out →
      (∀ t d, getTextDD (stripNs root0) [sDGDoc, sDataTag] = some t → t ≠ String.mk [] →
        parseDateYMD t = some d →
        out.1.invoice_date = d ∧ out.1.invoice_year = toString d.y ∧
        out.2.2.2.2 = toString d.y) ∧
      (getTextDD (stripNs root0) [sDGDoc, sDataTag] = none →
        out.1.invoice_date = today ∧ out.1.invoice_year = toString today.y)) ∧
    (∀ pf today root0 t, getTextDD (stripNs root0) [sDGDoc, sDataTag] = some t →
      t ≠ String.mk [] → parseDateYMD t = none →
      V3.parse_invoice_completo pf today root0 = none) ∧
    (∀ today root0 out, V8.parse_invoice_xml_advanced today root0 = some out →
      (∀ t, getTextDD (stripNs root0) [sDGDoc, sDataTag] = some t → t ≠ String.mk [] →
        parseDateYMD t = none → out.invoice_year = toString today.y ∧ out.invoice_date = none) ∧
      (∀ t d, getTextDD (stripNs root0) [sDGDoc, sDataTag] = some t → t ≠ String.mk [] →
        parseDateYMD t = some d → out.invoice_year = toString d.y ∧ out.invoice_date = some d) ∧
      (getTextDD (stripNs root0) [sDGDoc, sDataTag] = none →
        out.invoice_year = toString today.y ∧ out.invoice_date = none)) := by
  refine ⟨?_, ?_, ?_⟩
  · intro pf today root0 out hp
    obtain ⟨header, body, dg, cedente, cden, cessionario, cesden, dirRes, invDate, dgDoc,
      imp, tot, company, hH, hB, hDg, hCed, hCden, hCes, hCesden, hDir, hDate, hDgDoc,
      hImp, hTot, hComp, hOut⟩ := parse3_inversion pf today root0 out hp
    constructor
    · intro t d ht htne hd
      simp only [ht] at hDate
      rw [if_pos (bne_iff_ne.mpr htne), hd] at hDate
      cases Option.some.inj hDate
      subst hOut
      exact ⟨rfl, rfl, rfl⟩
    · intro ht
      simp only [ht] at hDate
      cases Option.some.inj hDate
      subst hOut
      exact ⟨rfl, rfl⟩
  · intro pf today root0 t ht htne hnone
    cases hq : V3.parse_invoice_completo pf today root0 with
    | none => rfl
    | some out =>
      obtain ⟨header, body, dg, cedente, cden, cessionario, cesden, dirRes, invDate, dgDoc,
        imp, tot, company, hH, hB, hDg, hCed, hCden, hCes, hCesden, hDir, hDate, hDgDoc,
        hImp, hTot, hComp, hOut⟩ := parse3_inversion pf today root0 out hq
      simp only [ht] at hDate
      rw [if_pos (bne_iff_ne.mpr htne), hnone] at hDate
      exact Option.noConfusion hDate
  · intro today root0 out hp
    obtain ⟨header, cedente, cessionario, body, dati, dgDoc, hH, hCed, hCes, hB, hDa,
      hDg, hOut⟩ := parse8_inversion today root0 out hp
    subst hOut
    refine ⟨?_, ?_, ?_⟩
    · intro t ht htne hnone
      simp [inv8Of, dateYearV8, ht, hnone, bne_iff_ne.mpr htne]
    · intro t d ht htne hd
      simp [inv8Of, dateYearV8, ht, hd, bne_iff_ne.mpr htne]
    · intro ht
      simp [inv8Of, dateYearV8, ht]

/-- C8 witness for the amended statement. -/
theorem c8_witness :
    dOutND.1.invoice_year = toString dToday.y ∧
    V3.parse_invoice_completo dPf dToday dBadDateTree = none ∧
    dOut8.invoice_year = toString dToday.y := by
  have h := c8_theorem
  refine ⟨((h.1 dPf dToday dNoDateTree dOutND dOutND_spec).2 (by decide)).2, ?_, ?_⟩
  · exact h.2.1 dPf dToday dBadDateTree dBanana (by decide) (by decide) (by decide)
  · exact ((h.2.2 dToday dBadDateTree dOut8 dOut8_spec).1 dBanana (by decide) (by decide)
      (by decide)).1

/-! ## C9: field extraction fallback chains -/

theorem specTaxCf_eq (cf : Option String) : pyOr cf sND = specTaxCf cf := by
  cases cf with
  | none => rfl
  | some c =>
    by_cases hc : c = String.mk []
    · subst hc; simp [pyOr, specTaxCf]
    · simp [pyOr, specTaxCf, hc, bne_iff_ne]

theorem chainEq (vat cf : Option String) (hnd : vat ≠ some sND) :
    (if pyOr vat sND != sND then pyOr vat sND else pyOr cf sND) = specTaxIdChain vat cf := by
  cases vat with
  | none =>
    rw [if_neg]
    · exact specTaxCf_eq cf
    · simp [pyOr]
  | some v =>
    by_cases hv : v = String.mk []
    · subst hv
      rw [if_neg]
      · simp only [specTaxIdChain]
        rw [if_neg (by simp)]
        exact specTaxCf_eq cf
      · simp [pyOr]
    · have hvnd : v ≠ sND := by
        intro he
        exact hnd (by rw [he])
      simp [pyOr, specTaxIdChain, hv, hvnd, bne_iff_ne]

theorem nomeEq (n : XNode) : V8.nomeBranch n = specNomeChain n := by
  simp only [V8.nomeBranch, specNomeChain]
  cases hn : childNamed n sNome with
  | none => simp [truthyText]
  | some nm =>
    cases hc : childNamed n sCognome with
    | none =>
      cases htn : nm.text with
      | none => simp [truthyText]
      | some tn => by_cases h1 : tn = String.mk [] <;> simp [truthyText, htn, h1, bne_iff_ne]
    | some cg =>
      cases htn : nm.text with
      | none =>
        cases htc : cg.text with
        | none => simp [truthyText, textStripOrEmpty, htn, htc]
        | some tc =>
          by_cases h2 : tc = String.mk [] <;>
            simp [truthyText, textStripOrEmpty, htn, htc, h2, bne_iff_ne]
      | some tn =>
        by_cases h1 : tn = String.mk []
        · cases htc : cg.text with
          | none => simp [truthyText, textStripOrEmpty, htn, htc, h1]
          | some tc =>
            by_cases h2 : tc = String.mk [] <;>
              simp [truthyText, textStripOrEmpty, htn, htc, h1, h2, bne_iff_ne]
        · cases htc : cg.text with
          | none => simp [truthyText, textStripOrEmpty, htn, htc, h1, bne_iff_ne]
          | some tc =>
            by_cases h2 : tc = String.mk [] <;>
              simp [truthyText, textStripOrEmpty, htn, htc, h1, h2, bne_iff_ne]

theorem denomChain_eq (node : Option XNode) :
    V8.get_denominazione_or_nome_cognome node = specDenomChain node := by
  cases node with
  | none => rfl
  | some n =>
    simp only [V8.get_denominazione_or_nome_cognome, specDenomChain]
    cases hd : childNamed n sDenominazione with
    | none =>
      simp only [truthyText]
      exact nomeEq n
    | some d =>
      obtain ⟨dt, dtx, dch⟩ := d
      cases dtx with
      | none =>
        simp only [XNode.text, truthyText]
        exact nomeEq n
      | some t =>
        by_cases hte : t = String.mk []
        · subst hte
          simp only [XNode.text, truthyText]
          rw [if_neg (by simp), if_neg (by simp)]
          exact nomeEq n
        · simp only [XNode.text, truthyText]
          rw [if_pos (bne_iff_ne.mpr hte), if_pos (bne_iff_ne.mpr hte)]

/-- C9: the party tax identity follows the VAT-then-tax-code-then-
unavailable chain (whenever the VAT text is not itself the sentinel), the
v8 display-name helper equals the spec's denomination-then-names-then-
sentinel chain on every node, and the withholding fields of a parsed v3
record are populated exactly when the withholding subtree exists, with
zero amount and sentinel type otherwise. -/
theorem c9_theorem :
    (∀ root, getTextDD root [sCedente, sDatiAnagrafici, sIdFiscaleIVA, sIdCodice] ≠ some sND →
      senderVat root = specTaxIdChain
        (getTextDD root [sCedente, sDatiAnagrafici, sIdFiscaleIVA, sIdCodice])
        (getTextDD root [sCedente, sDatiAnagrafici, sCodiceFiscale])) ∧
    (∀ root, getTextDD root [sCessionario, sDatiAnagrafici, sIdFiscaleIVA, sIdCodice] ≠ some sND →
      receiverVat root = specTaxIdChain
        (getTextDD root [sCessionario, sDatiAnagrafici, sIdFiscaleIVA, sIdCodice])
        (getTextDD root [sCessionario, sDatiAnagrafici, sCodiceFiscale])) ∧
    (∀ node, V8.get_denominazione_or_nome_cognome node = specDenomChain node) ∧
    (∀ pf today root0 out, V3.parse_invoice_completo pf today root0 = some out →
      ∃ dgDoc, v3DgDoc root0 = some dgDoc ∧
        out.1.has_ritenuta = (childNamed dgDoc sDatiRitenuta).isSome ∧
        ((childNamed dgDoc sDatiRitenuta).isSome = false →
          out.1.has_ritenuta = false ∧ out.1.importo_ritenuta = 0 ∧
          out.1.tipo_ritenuta = sND)) := by
  refine ⟨?_, ?_, denomChain_eq, ?_⟩
  · intro root hnd
    unfold senderVat cedPIva cedIdFisc
    exact chainEq _ _ hnd
  · intro root hnd
    unfold receiverVat cesPIva cesIdFisc
    exact chainEq _ _ hnd
  · intro pf today root0 out hp
    obtain ⟨header, body, dg, cedente, cden, cessionario, cesden, dirRes, invDate, dgDoc,
      imp, tot, company, hH, hB, hDg, hCed, hCden, hCes, hCesden, hDir, hDate, hDgDoc,
      hImp, hTot, hComp, hOut⟩ := parse3_inversion pf today root0 out hp
    refine ⟨dgDoc, ?_, ?_, ?_⟩
    · simp [v3DgDoc, hB, hDg, hDgDoc]
    · subst hOut; rfl
    · intro hno
      subst hOut
      rw [if_neg (by simp [hno])] at hImp
      cases Option.some.inj hImp
      exact ⟨hno, rfl, by simp [fatturaOf, hno]⟩

/-- C9 witness for the chains on the demo documents. -/
theorem c9_witness :
    senderVat (stripNs dTree) = specTaxIdChain
      (getTextDD (stripNs dTree) [sCedente, sDatiAnagrafici, sIdFiscaleIVA, sIdCodice])
      (getTextDD (stripNs dTree) [sCedente, sDatiAnagrafici, sCodiceFiscale]) ∧
    receiverVat (stripNs dTree) = specTaxIdChain
      (getTextDD (stripNs dTree) [sCessionario, sDatiAnagrafici, sIdFiscaleIVA, sIdCodice])
      (getTextDD (stripNs dTree) [sCessionario, sDatiAnagrafici, sCodiceFiscale]) ∧
    dOutND.1.has_ritenuta = false ∧ dOutND.1.importo_ritenuta = 0 ∧
    dOutND.1.tipo_ritenuta = sND := by
  have h := c9_theorem
  obtain ⟨dgDoc, hdg, hhas, himp⟩ := h.2.2.2 dPf dToday dNoDateTree dOutND dOutND_spec
  rw [dNDdgDoc_spec] at hdg
  cases Option.some.inj hdg
  have h3 := himp (by decide)
  exact ⟨h.1 (stripNs dTree) (by decide), h.2.1 (stripNs dTree) (by decide),
    h3.1, h3.2.1, h3.2.2⟩

end XFP
